import Mathlib

/-!
Indicator summary of the dashboard

A shallow embedding of `static/js/dashboard/indicator-summary-calculator.js`
(class `IndicatorSummaryCalculator`) and of the recommendation logic of
`updateDetailedSummary` in `static/js/dashboard.js`.

Modelling choices:

* JavaScript values are the values a JSON response can hold (`null`, booleans,
  numbers, strings, arrays, plain objects) together with `undefined`, `NaN` and
  the two infinities.  Symbols, functions, getters and proxies are outside the
  model.  Of the logging only the template literal at the head of the loop body
  is modelled, because its string conversion of the value can raise a
  `TypeError`; the other `console.log` calls cannot throw and are left out.
* A number is `NaN`, an infinity, or a finite value held as a rational (every
  finite double is a rational, and the code only compares values).
* A plain object is the list of its own enumerable properties in enumeration
  order.  Strings are sequences of Unicode scalar values; JavaScript strings
  are sequences of UTF-16 code units, so a character outside the Basic
  Multilingual Plane is one character here and two units there (this only
  changes how many entries `Object.entries` lists for a string, and string
  entries are never counted).
* Operations that raise a `TypeError` in JavaScript return `Except.error`.
* The counters are natural numbers.
-/

namespace Dashboard

/-- A JavaScript number: `NaN`, an infinity, or a finite value. -/
inductive JSNum where
  | nan
  | posInf
  | negInf
  | fin (q : ℚ)
deriving DecidableEq

/-- A JavaScript value as it can arrive from the data layer. -/
inductive JSValue where
  | undefined
  | null
  | bool (b : Bool)
  | num (n : JSNum)
  | str (s : String)
  | arr (xs : List JSValue)
  | obj (props : List (String × JSValue))

/-- The exception raised by a failing JavaScript operation. -/
inductive JSError where
  | typeError
deriving DecidableEq

namespace JSNum

/-- The comparison `v > t` against a finite threshold; false for `NaN`. -/
def gt (v : JSNum) (t : ℚ) : Bool :=
  match v with
  | nan => false
  | posInf => true
  | negInf => false
  | fin q => decide (t < q)

/-- The comparison `v < t` against a finite threshold; false for `NaN`. -/
def lt (v : JSNum) (t : ℚ) : Bool :=
  match v with
  | nan => false
  | posInf => false
  | negInf => true
  | fin q => decide (q < t)

/-- The global `isNaN` on a number. -/
def isNaN (v : JSNum) : Bool :=
  match v with
  | nan => true
  | _ => false

end JSNum

namespace JSValue

/-- ToBoolean: `undefined`, `null`, `false`, `0`, `NaN` and `''` are falsy. -/
def truthy (v : JSValue) : Bool :=
  match v with
  | undefined => false
  | null => false
  | bool b => b
  | num JSNum.nan => false
  | num (JSNum.fin q) => decide (q ≠ 0)
  | num _ => true
  | str s => decide (s ≠ "")
  | arr _ => true
  | obj _ => true

/-- The test `typeof v === 'object'` (true for `null`, arrays and objects). -/
def typeofObject (v : JSValue) : Bool :=
  match v with
  | null => true
  | arr _ => true
  | obj _ => true
  | _ => false

/-- The test `Array.isArray(v)`. -/
def isArray (v : JSValue) : Bool :=
  match v with
  | arr _ => true
  | _ => false

/-- The test `v !== undefined`. -/
def isDefined (v : JSValue) : Bool :=
  match v with
  | undefined => false
  | _ => true

/-- The test `typeof v === 'number' && !isNaN(v)` of the counting loop. -/
def isCountable (v : JSValue) : Bool :=
  match v with
  | num n => !n.isNaN
  | _ => false

/-- Property read `v.k` for the keys the calculator reads (`indicators`,
`analysis`, `value`, `values`): a `TypeError` on `undefined` and `null`, the
own property of an object, and `undefined` on every other value (none of
these keys is an index or `length`, and none is inherited from
`Object.prototype`).  One inherited property is met: on an array, `values` is
the method `Array.prototype.values`, a function, which the model has no value
for.  The code reads `values` only from the last snapshot and only to list
its entries; a function has no enumerable entries, so the code ends with no
indicator values, as the model does after reading `undefined`. -/
def getProp (v : JSValue) (k : String) : Except JSError JSValue :=
  match v with
  | undefined => .error .typeError
  | null => .error .typeError
  | obj props =>
    match props.lookup k with
    | some x => .ok x
    | none => .ok undefined
  | _ => .ok undefined

/-- The element `xs[xs.length - 1]` of an array, `undefined` when it is empty. -/
def lastElement (v : JSValue) : JSValue :=
  match v with
  | arr xs =>
    match xs.getLast? with
    | some x => x
    | none => undefined
  | _ => undefined

/-- The entries of an array: index (as a decimal string) and element. -/
def indexed (i : Nat) : List JSValue → List (String × JSValue)
  | [] => []
  | x :: xs => (toString i, x) :: indexed (i + 1) xs

/-- Own enumerable entries, `Object.entries(v)` (and, for the keys,
`Object.keys(v)`): a `TypeError` on `undefined` and `null`, nothing for a
boolean or a number, the characters of a string (one entry per Unicode scalar
value, where JavaScript has one per UTF-16 code unit), the elements of an
array, the properties of an object. -/
def objectEntries (v : JSValue) : Except JSError (List (String × JSValue)) :=
  match v with
  | undefined => .error .typeError
  | null => .error .typeError
  | bool _ => .ok []
  | num _ => .ok []
  | str s => .ok (indexed 0 (s.data.map (fun c => str (String.singleton c))))
  | arr xs => .ok (indexed 0 xs)
  | obj props => .ok props

mutual
/-- Whether the string conversion of a value, as made by a template literal
`${v}`, succeeds.  A primitive always converts.  A plain object converts
through `Object.prototype.toString` unless it has an own property `toString`:
that property holds data, is not callable, and the inherited `valueOf` returns
the object itself, so the conversion raises a `TypeError`.  An array converts
through `join`, which converts each element. -/
def convertsToString : JSValue → Bool
  | arr xs => elementsConvert xs
  | obj props => (props.lookup "toString").isNone
  | _ => true
/-- Whether every element of an array converts to a string. -/
def elementsConvert : List JSValue → Bool
  | [] => true
  | x :: xs => convertsToString x && elementsConvert xs
end

/-- The string conversion `${v}` of a template literal: a `TypeError` when
the value does not convert. -/
def templateString (v : JSValue) : Except JSError Unit :=
  if v.convertsToString then .ok () else .error .typeError

end JSValue

open JSValue

/-- Assignment `o[name] = v` on a plain object created by `{}`: the key
`__proto__` reaches the prototype setter and creates no own property; an
existing property is overwritten in place; a new one is added at the end. -/
def setProp (props : List (String × JSValue)) (name : String) (v : JSValue) :
    List (String × JSValue) :=
  if name = "__proto__" then props
  else if props.any (fun p => p.1 == name) then
    props.map (fun p => if p.1 == name then (name, v) else p)
  else props ++ [(name, v)]

/-- Whether `kw` is a prefix of a character sequence. -/
def startsWithChars : List Char → List Char → Bool
  | [], _ => true
  | _ :: _, [] => false
  | k :: ks, c :: cs => k == c && startsWithChars ks cs

/-- Whether `kw` occurs as a contiguous block in a character sequence. -/
def includesChars (kw : List Char) : List Char → Bool
  | [] => startsWithChars kw []
  | c :: cs => startsWithChars kw (c :: cs) || includesChars kw cs

/-- The method `name.includes(kw)`: case-sensitive substring containment. -/
def includes (name kw : String) : Bool :=
  includesChars kw.data name.data

/-- The record returned by `getCounts`. -/
structure SummaryCounts where
  upCount : Nat
  downCount : Nat
  neutralCount : Nat
  totalCount : Nat
deriving DecidableEq, Repr

/-- The instance fields of the class `IndicatorSummaryCalculator`. -/
structure IndicatorSummaryCalculator where
  upCount : Nat
  downCount : Nat
  neutralCount : Nat
  totalCount : Nat
deriving DecidableEq, Repr

namespace IndicatorSummaryCalculator

/-- The constructor: all counters start at zero. -/
def new : IndicatorSummaryCalculator :=
  { upCount := 0, downCount := 0, neutralCount := 0, totalCount := 0 }

/-- The method `resetCounts`. -/
def resetCounts (_self : IndicatorSummaryCalculator) : IndicatorSummaryCalculator :=
  { upCount := 0, downCount := 0, neutralCount := 0, totalCount := 0 }

/-- The method `getCounts`. -/
def getCounts (self : IndicatorSummaryCalculator) : SummaryCounts :=
  { upCount := self.upCount, downCount := self.downCount,
    neutralCount := self.neutralCount, totalCount := self.totalCount }

/-- The statement `this.upCount++`. -/
def incUp (self : IndicatorSummaryCalculator) : IndicatorSummaryCalculator :=
  { self with upCount := self.upCount + 1 }

/-- The statement `this.downCount++`. -/
def incDown (self : IndicatorSummaryCalculator) : IndicatorSummaryCalculator :=
  { self with downCount := self.downCount + 1 }

/-- The statement `this.neutralCount++`. -/
def incNeutral (self : IndicatorSummaryCalculator) : IndicatorSummaryCalculator :=
  { self with neutralCount := self.neutralCount + 1 }

/-- The statement `this.totalCount++`. -/
def incTotal (self : IndicatorSummaryCalculator) : IndicatorSummaryCalculator :=
  { self with totalCount := self.totalCount + 1 }

/-- The method `analyzeRSI`. -/
def analyzeRSI (self : IndicatorSummaryCalculator) (_name : String) (value : JSNum) :
    IndicatorSummaryCalculator :=
  if value.gt 70 then self.incDown
  else if value.lt 30 then self.incUp
  else self.incNeutral

/-- The method `analyzeMACD`. -/
def analyzeMACD (self : IndicatorSummaryCalculator) (_name : String) (_value : JSNum) :
    IndicatorSummaryCalculator :=
  self.incNeutral

/-- The method `analyzeStochastic`. -/
def analyzeStochastic (self : IndicatorSummaryCalculator) (_name : String) (value : JSNum) :
    IndicatorSummaryCalculator :=
  if value.gt 80 then self.incDown
  else if value.lt 20 then self.incUp
  else self.incNeutral

/-- The method `analyzeWilliamsR`. -/
def analyzeWilliamsR (self : IndicatorSummaryCalculator) (_name : String) (value : JSNum) :
    IndicatorSummaryCalculator :=
  if value.gt (-20) then self.incDown
  else if value.lt (-80) then self.incUp
  else self.incNeutral

/-- The method `analyzeCCI`. -/
def analyzeCCI (self : IndicatorSummaryCalculator) (_name : String) (value : JSNum) :
    IndicatorSummaryCalculator :=
  if value.gt 100 then self.incDown
  else if value.lt (-100) then self.incUp
  else self.incNeutral

/-- The method `analyzeMoneyFlowIndex`. -/
def analyzeMoneyFlowIndex (self : IndicatorSummaryCalculator) (_name : String)
    (value : JSNum) : IndicatorSummaryCalculator :=
  if value.gt 80 then self.incDown
  else if value.lt 20 then self.incUp
  else self.incNeutral

/-- The method `analyzeADX`. -/
def analyzeADX (self : IndicatorSummaryCalculator) (_name : String) (value : JSNum) :
    IndicatorSummaryCalculator :=
  if value.gt 25 then self.incUp
  else self.incNeutral

/-- The method `analyzeFearGreedIndex`. -/
def analyzeFearGreedIndex (self : IndicatorSummaryCalculator) (_name : String)
    (value : JSNum) : IndicatorSummaryCalculator :=
  if value.gt 70 then self.incDown
  else if value.lt 30 then self.incUp
  else self.incNeutral

/-- The method `analyzeCorrelation`; the thresholds are `0.5` and `-0.5`. -/
def analyzeCorrelation (self : IndicatorSummaryCalculator) (_name : String)
    (value : JSNum) : IndicatorSummaryCalculator :=
  if value.gt (1 / 2) then self.incUp
  else if value.lt (-(1 / 2)) then self.incDown
  else self.incNeutral

/-- The method `analyzeRateOfChange`. -/
def analyzeRateOfChange (self : IndicatorSummaryCalculator) (_name : String)
    (value : JSNum) : IndicatorSummaryCalculator :=
  if value.gt 0 then self.incUp
  else if value.lt 0 then self.incDown
  else self.incNeutral

/-- The method `analyzeIndicator`: dispatch on the first keyword the name
contains, in the order of the source's `if` chain. -/
def analyzeIndicator (self : IndicatorSummaryCalculator) (name : String) (value : JSNum) :
    IndicatorSummaryCalculator :=
  if includes name "rsi" then self.analyzeRSI name value
  else if includes name "macd" then self.analyzeMACD name value
  else if includes name "stochastic" then self.analyzeStochastic name value
  else if includes name "williams_r" then self.analyzeWilliamsR name value
  else if includes name "cci" then self.analyzeCCI name value
  else if includes name "money_flow_index" then self.analyzeMoneyFlowIndex name value
  else if includes name "adx" then self.analyzeADX name value
  else if includes name "fear_greed_index" then self.analyzeFearGreedIndex name value
  else if includes name "correlation" then self.analyzeCorrelation name value
  else if includes name "rate_of_change" then self.analyzeRateOfChange name value
  else self.incNeutral

/-- The guard of `calculateSummary`,
`!indicatorsData || !indicatorsData.indicators || !indicatorsData.analysis`,
evaluated left to right with short circuit. -/
def dataMissing (indicatorsData : JSValue) : Except JSError Bool := do
  if !indicatorsData.truthy then return true
  let indicators ← indicatorsData.getProp "indicators"
  if !indicators.truthy then return true
  let analysis ← indicatorsData.getProp "analysis"
  return !analysis.truthy

/-- The body of the callback over `Object.entries(indicatorsData.analysis)`:
`if (data && data.value !== undefined) indicatorValues[name] = data.value`. -/
def collectValue (indicatorValues : List (String × JSValue)) (entry : String × JSValue) :
    Except JSError (List (String × JSValue)) := do
  if entry.2.truthy then
    let value ← entry.2.getProp "value"
    if value.isDefined then return setProp indicatorValues entry.1 value
    else return indicatorValues
  else return indicatorValues

/-- The part of `calculateSummary` that builds `indicatorValues`: from the
entries of `analysis` when it is an object, otherwise from the `values` of the
last element of the `indicators` array, otherwise the empty object. -/
def extractIndicatorValues (indicatorsData : JSValue) : Except JSError JSValue := do
  let analysis ← indicatorsData.getProp "analysis"
  if analysis.truthy && analysis.typeofObject then
    let entries ← analysis.objectEntries
    let indicatorValues ← entries.foldlM collectValue []
    return JSValue.obj indicatorValues
  else
    let indicators ← indicatorsData.getProp "indicators"
    if indicators.truthy && indicators.isArray then
      let latestData := indicators.lastElement
      if latestData.truthy then
        let values ← latestData.getProp "values"
        if values.truthy then return values
        else return JSValue.obj []
      else return JSValue.obj []
    else return JSValue.obj []

/-- The first log statement of the loop body,
`console.log(... 値: ${value} ...)`: the template literal converts the value
to a string before the type test is reached. -/
def logEntry (entry : String × JSValue) : Except JSError Unit :=
  entry.2.templateString

/-- The counting statement of the loop body over
`Object.entries(indicatorValues)`: a value that is a number other than `NaN`
is analysed and counted. -/
def countEntry (self : IndicatorSummaryCalculator) (entry : String × JSValue) :
    IndicatorSummaryCalculator :=
  match entry.2 with
  | JSValue.num n =>
    if !n.isNaN then (self.analyzeIndicator entry.1 n).incTotal else self
  | _ => self

/-- The callback of the loop over `Object.entries(indicatorValues)`: the log
statement, then the counting statement. -/
def processEntry (self : IndicatorSummaryCalculator) (entry : String × JSValue) :
    Except JSError IndicatorSummaryCalculator := do
  logEntry entry
  return countEntry self entry

/-- The method `calculateSummary`: the returned record and the calculator
after the call, or the exception that leaves the call. -/
def calculateSummary (self : IndicatorSummaryCalculator) (indicatorsData : JSValue) :
    Except JSError (SummaryCounts × IndicatorSummaryCalculator) := do
  let self := self.resetCounts
  if (← dataMissing indicatorsData) then return (self.getCounts, self)
  let indicatorValues ← extractIndicatorValues indicatorsData
  let entries ← indicatorValues.objectEntries
  if entries.length == 0 then return (self.getCounts, self)
  let self ← entries.foldlM processEntry self
  return (self.getCounts, self)

end IndicatorSummaryCalculator

/-- The recommendation label chosen by `updateDetailedSummary` (the text put
into the `recommendation` element). -/
def updateDetailedSummaryRecommendation (upCount downCount neutralCount _totalCount : Nat) :
    String :=
  if upCount > downCount && upCount > neutralCount then "買い推奨"
  else if downCount > upCount && downCount > neutralCount then "売り推奨"
  else if neutralCount > upCount && neutralCount > downCount then "ホールド推奨"
  else if upCount == downCount then "中立"
  else "データ不足"

open IndicatorSummaryCalculator

/-- The readings the counting loop of `calculateSummary` runs over: none when
the guard returns early, otherwise the entries of `indicatorValues`. -/
def extractedReadings (indicatorsData : JSValue) : List (String × JSValue) :=
  match dataMissing indicatorsData with
  | .ok false =>
    match extractIndicatorValues indicatorsData with
    | .ok indicatorValues =>
      match indicatorValues.objectEntries with
      | .ok entries => entries
      | .error _ => []
    | .error _ => []
  | _ => []

/-- The outcome of the loop of `calculateSummary` on a list of readings: a
`TypeError` when the value of some reading does not convert to a string for
the log statement, otherwise the counts reached from zero. -/
def summarize (readings : List (String × JSValue)) :
    Except JSError (SummaryCounts × IndicatorSummaryCalculator) :=
  if readings.all (fun e => e.2.convertsToString) then
    .ok ((readings.foldl countEntry new).getCounts, readings.foldl countEntry new)
  else .error .typeError

/-- Whether every value the loop of `calculateSummary` visits converts to a
string for the log statement. -/
def loggable (indicatorsData : JSValue) : Bool :=
  (extractedReadings indicatorsData).all (fun e => e.2.convertsToString)

/-- The number of entries `name: data` of an `analysis` object whose
`data.value` is a number other than `NaN`. -/
def numberReadingCount (props : List (String × JSValue)) : Nat :=
  props.countP (fun e =>
    match e.2.getProp "value" with
    | .ok value => value.isCountable
    | .error _ => false)

/-- Example input `{indicators: [], analysis: {x: {value: {toString: 0}}}}`. -/
def toStringInput : JSValue :=
  .obj [("indicators", .arr []),
        ("analysis", .obj [("x", .obj [("value", .obj [("toString", .num (.fin 0))])])])]

/-- Example input
`{indicators: [], analysis: {rsi: {value: 75}, note: {value: {toString: 0}}}}`. -/
def analysisInputWithObject : JSValue :=
  .obj [("indicators", .arr []),
        ("analysis", .obj [("rsi", .obj [("value", .num (.fin 75))]),
                           ("note", .obj [("value", .obj [("toString", .num (.fin 0))])])])]

/-- The number of readings whose value is a finite number: the total the
specification promises. -/
def finiteReadingCount (readings : List (String × JSValue)) : Nat :=
  readings.countP (fun r =>
    match r.2 with
    | JSValue.num (JSNum.fin _) => true
    | _ => false)

/-- The reading that one entry `name: data` of `analysis` contributes to
`indicatorValues`, when the names of `analysis` are distinct. -/
def readingOf (entry : String × JSValue) : Option (String × JSValue) :=
  if entry.1 = "__proto__" then none
  else if entry.2.truthy then
    match entry.2.getProp "value" with
    | .ok value => if value.isDefined then some (entry.1, value) else none
    | .error _ => none
  else none

/-- A family rule: one of the `analyze...` methods. -/
abbrev FamilyRule :=
  IndicatorSummaryCalculator → String → JSNum → IndicatorSummaryCalculator

/-- Dispatch over an ordered table of keyword and rule: the first keyword
contained in the name decides; a name matching none is counted neutral. -/
def dispatchInOrder (table : List (String × FamilyRule))
    (self : IndicatorSummaryCalculator) (name : String) (value : JSNum) :
    IndicatorSummaryCalculator :=
  match table.find? (fun family => includes name family.1) with
  | some family => family.2 self name value
  | none => self.incNeutral

/-- The priority order of the specification's family table (`macd` last). -/
def specFamilyOrder : List (String × FamilyRule) :=
  [("rsi", analyzeRSI), ("stochastic", analyzeStochastic),
   ("williams_r", analyzeWilliamsR), ("cci", analyzeCCI),
   ("money_flow_index", analyzeMoneyFlowIndex), ("adx", analyzeADX),
   ("fear_greed_index", analyzeFearGreedIndex), ("correlation", analyzeCorrelation),
   ("rate_of_change", analyzeRateOfChange), ("macd", analyzeMACD)]

/-- The priority order of the `if` chain in `analyzeIndicator` (`macd` second). -/
def sourceFamilyOrder : List (String × FamilyRule) :=
  [("rsi", analyzeRSI), ("macd", analyzeMACD), ("stochastic", analyzeStochastic),
   ("williams_r", analyzeWilliamsR), ("cci", analyzeCCI),
   ("money_flow_index", analyzeMoneyFlowIndex), ("adx", analyzeADX),
   ("fear_greed_index", analyzeFearGreedIndex), ("correlation", analyzeCorrelation),
   ("rate_of_change", analyzeRateOfChange)]

/-- The all-zero record. -/
def zeroCounts : SummaryCounts :=
  { upCount := 0, downCount := 0, neutralCount := 0, totalCount := 0 }

/-- Example input `{indicators: [], analysis: {rsi: {value: Infinity}}}`. -/
def infinityInput : JSValue :=
  .obj [("indicators", .arr []),
        ("analysis", .obj [("rsi", .obj [("value", .num .posInf)])])]

/-- Example flat mapping `{rsi: 75, adx: 30}`. -/
def flatMapping : List (String × JSValue) :=
  [("rsi", .num (.fin 75)), ("adx", .num (.fin 30))]

/-- Example snapshot array
`{indicators: [{name: 't1', values: {rsi: 20}}, {name: 't2', values: {rsi: 75}}]}`. -/
def snapshotInput : JSValue :=
  .obj [("indicators", .arr
    [.obj [("name", .str "t1"), ("values", .obj [("rsi", .num (.fin 20))])],
     .obj [("name", .str "t2"), ("values", .obj [("rsi", .num (.fin 75))])]])]

/-- Example input `{indicators: [], analysis: {}}`. -/
def emptyAnalysisInput : JSValue :=
  .obj [("indicators", .arr []), ("analysis", .obj [])]

/-- Example input `{indicators: [], analysis: {rsi: {value: 75}}}`. -/
def analysisInput : JSValue :=
  .obj [("indicators", .arr []),
        ("analysis", .obj [("rsi", .obj [("value", .num (.fin 75))])])]

/-- Example input
`{indicators: [], analysis: {note: {value: 'n/a'}, rsi: {value: 75}}}`. -/
def analysisInputWithText : JSValue :=
  .obj [("indicators", .arr []),
        ("analysis", .obj [("note", .obj [("value", .str "n/a")]),
                           ("rsi", .obj [("value", .num (.fin 75))])])]

/-- Example input `{indicators: [{values: {rsi: 75}}], analysis: true}`. -/
def legacyInput : JSValue :=
  .obj [("indicators", .arr [.obj [("values", .obj [("rsi", .num (.fin 75))])]]),
        ("analysis", .bool true)]

/-- Example input `{indicators: [{values: {rsi: 75, macd: NaN}}], analysis: true}`. -/
def legacyInputWithNaN : JSValue :=
  .obj [("indicators", .arr [.obj [("values",
          .obj [("rsi", .num (.fin 75)), ("macd", .num .nan)])]]),
        ("analysis", .bool true)]

/-- Rounding to the nearest integer, a tie going to the even neighbour: the
rounding of a significand in double arithmetic. -/
def roundHalfEven (x : ℚ) : ℤ :=
  if x - ⌊x⌋ < 1 / 2 then ⌊x⌋
  else if 1 / 2 < x - ⌊x⌋ then ⌊x⌋ + 1
  else if ⌊x⌋ % 2 = 0 then ⌊x⌋
  else ⌊x⌋ + 1

/-- The double nearest to an exact value: the value is scaled so that its
significand lies in `[2^52, 2^53)`, the significand is rounded to the nearest
integer (ties to even) and scaled back.  This is the result of one arithmetic
operation on doubles in the normal range (no overflow, no subnormals), which
covers every quotient and product formed from counts below `2^53`. -/
def toDouble (x : ℚ) : ℚ :=
  if x = 0 then 0
  else roundHalfEven (x / 2 ^ (Int.log 2 |x| - 52)) * 2 ^ (Int.log 2 |x| - 52)

/-- The function `Math.round` on a finite value: the nearest integer, a tie
going towards plus infinity. -/
def mathRound (x : ℚ) : ℤ :=
  ⌊x + 1 / 2⌋

/-- The percentage of `updateDetailedSummary`,
`totalCount > 0 ? Math.round((count / totalCount) * 100) : 0`, with the
division and the multiplication each rounded to a double. -/
def percentage (count totalCount : Nat) : ℤ :=
  if totalCount > 0 then
    mathRound (toDouble (toDouble ((count : ℚ) / (totalCount : ℚ)) * 100))
  else 0

/-- The percentage the specification describes: `100 * count / totalCount`
in exact arithmetic, rounded to the nearest integer with halves rounded up. -/
def exactPercentage (count totalCount : Nat) : ℤ :=
  if totalCount > 0 then ⌊(100 * (count : ℚ)) / (totalCount : ℚ) + 1 / 2⌋ else 0

/-- The sentiment label chosen by `updateSummaryDetails` (the text put into
the `market-sentiment` element). -/
def updateSummaryDetailsSentiment (upPercent downPercent : ℤ) : String :=
  if upPercent > 60 then "強気"
  else if downPercent > 60 then "弱気"
  else if upPercent > downPercent then "やや強気"
  else if downPercent > upPercent then "やや弱気"
  else "中立"

/-- What `updateDetailedSummary` displays: the three percentages, the
recommendation, and the sentiment written by `updateSummaryDetails`. -/
structure SummaryDisplay where
  upPercent : ℤ
  downPercent : ℤ
  neutralPercent : ℤ
  recommendation : String
  sentiment : String

/-- The function `updateDetailedSummary`, as the values it writes to the page
when the target elements exist. -/
def updateDetailedSummary (upCount downCount neutralCount totalCount : Nat) :
    SummaryDisplay :=
  { upPercent := percentage upCount totalCount
    downPercent := percentage downCount totalCount
    neutralPercent := percentage neutralCount totalCount
    recommendation :=
      updateDetailedSummaryRecommendation upCount downCount neutralCount totalCount
    sentiment :=
      updateSummaryDetailsSentiment (percentage upCount totalCount)
        (percentage downCount totalCount) }

/-- The family keywords in the order `analyzeIndicator` tests them. -/
def familyKeywords : List String :=
  ["rsi", "macd", "stochastic", "williams_r", "cci", "money_flow_index", "adx",
   "fear_greed_index", "correlation", "rate_of_change"]

/-- A name is dispatched to the family of keyword `kw` when it contains `kw`
and none of the keywords tested before `kw`. -/
def dispatchedTo (name kw : String) : Bool :=
  includes name kw &&
    (familyKeywords.takeWhile (fun k => k != kw)).all (fun k => !includes name k)

/-- A name that contains none of the ten family keywords. -/
def unrecognized (name : String) : Bool :=
  familyKeywords.all (fun k => !includes name k)

/-- Example input `{indicators: true, analysis: {rsi: {value: 75}}}`. -/
def analysisInputOtherIndicators : JSValue :=
  .obj [("indicators", .bool true),
        ("analysis", .obj [("rsi", .obj [("value", .num (.fin 75))])])]

/-- Example input `{indicators: [{values: {rsi: 75}}], analysis: {}}`. -/
def emptyAnalysisWithSnapshot : JSValue :=
  .obj [("indicators", .arr [.obj [("values", .obj [("rsi", .num (.fin 75))])]]),
        ("analysis", .obj [])]

/-- A step that adds one to exactly one of the three classification counters. -/
def OneStep (s t : IndicatorSummaryCalculator) : Prop :=
  t = s.incUp ∨ t = s.incDown ∨ t = s.incNeutral

/-- The sum invariant of the counters. -/
def Balanced (s : IndicatorSummaryCalculator) : Prop :=
  s.upCount + s.downCount + s.neutralCount = s.totalCount

/-! ## Basic facts about the embedding -/

theorem getProp_of_truthy (v : JSValue) (k : String) (h : v.truthy = true) :
    ∃ x, v.getProp k = .ok x := by
  cases v <;> simp [JSValue.truthy] at h <;> simp [JSValue.getProp]
  case obj props => cases props.lookup k <;> simp

theorem objectEntries_of_truthy (v : JSValue) (h : v.truthy = true) :
    ∃ es, v.objectEntries = .ok es := by
  cases v <;> simp [JSValue.truthy] at h <;> simp [JSValue.objectEntries]

theorem collectValue_ok (acc : List (String × JSValue)) (e : String × JSValue) :
    ∃ r, collectValue acc e = .ok r := by
  unfold collectValue
  by_cases h : e.2.truthy = true
  · obtain ⟨x, hx⟩ := getProp_of_truthy e.2 "value" h
    simp only [h, hx, if_true, bind, Except.bind, pure, Except.pure]
    split <;> simp
  · simp [h, pure, Except.pure]

theorem foldlM_collectValue_ok (es : List (String × JSValue)) :
    ∀ acc, ∃ r, es.foldlM collectValue acc = .ok r := by
  induction es with
  | nil => intro acc; exact ⟨acc, rfl⟩
  | cons e es ih =>
    intro acc
    obtain ⟨r, hr⟩ := collectValue_ok acc e
    obtain ⟨r2, hr2⟩ := ih r
    exact ⟨r2, by simp [List.foldlM, hr, hr2, bind, Except.bind]⟩

theorem dataMissing_ok (v : JSValue) :
    dataMissing v = .ok true ∨ (dataMissing v = .ok false ∧ v.truthy = true) := by
  unfold dataMissing
  by_cases h : v.truthy = true
  · obtain ⟨x, hx⟩ := getProp_of_truthy v "indicators" h
    obtain ⟨y, hy⟩ := getProp_of_truthy v "analysis" h
    simp only [h, hx, hy, bind, Except.bind, pure, Except.pure]
    by_cases h1 : x.truthy = true <;> by_cases h2 : y.truthy = true <;> simp [h1, h2]
  · simp [h, pure, Except.pure]

theorem extractIndicatorValues_ok (v : JSValue) (h : v.truthy = true) :
    ∃ vals, extractIndicatorValues v = .ok vals ∧ vals.truthy = true := by
  unfold extractIndicatorValues
  obtain ⟨a, ha⟩ := getProp_of_truthy v "analysis" h
  obtain ⟨i, hi⟩ := getProp_of_truthy v "indicators" h
  simp only [ha, hi, bind, Except.bind, pure, Except.pure]
  by_cases h1 : (a.truthy && a.typeofObject) = true
  · simp only [h1, if_true]
    simp only [Bool.and_eq_true] at h1
    obtain ⟨es, hes⟩ := objectEntries_of_truthy a h1.1
    obtain ⟨r, hr⟩ := foldlM_collectValue_ok es []
    simp [hes, hr, JSValue.truthy]
  · simp only [h1]
    by_cases h2 : (i.truthy && i.isArray) = true
    · simp only [h2, if_true]
      by_cases h3 : i.lastElement.truthy = true
      · obtain ⟨w, hw⟩ := getProp_of_truthy _ "values" h3
        simp only [h3, hw, if_true]
        by_cases h4 : w.truthy = true
        · rw [if_pos h4]; exact ⟨w, rfl, h4⟩
        · rw [if_neg h4]; exact ⟨_, rfl, rfl⟩
      · rw [if_neg h3]; exact ⟨_, rfl, rfl⟩
    · rw [if_neg h2]; exact ⟨_, rfl, rfl⟩

theorem foldlM_processEntry (es : List (String × JSValue)) :
    ∀ s : IndicatorSummaryCalculator,
      es.foldlM processEntry s =
        if es.all (fun e => e.2.convertsToString) then .ok (es.foldl countEntry s)
        else .error .typeError := by
  induction es with
  | nil => intro s; simp [pure, Except.pure]
  | cons e es ih =>
    intro s
    rw [List.foldlM_cons]
    cases hc : e.2.convertsToString
    · simp [processEntry, logEntry, JSValue.templateString, hc, bind, Except.bind]
    · simp only [processEntry, logEntry, JSValue.templateString, hc, bind, Except.bind,
        pure, Except.pure, if_true]
      rw [ih]
      simp only [List.all_cons, hc, Bool.true_and]
      rfl

/-- Normal form of `calculateSummary`: its outcome is that of the loop run
from zero over the extracted readings. -/
theorem calculateSummary_eq_fold (self : IndicatorSummaryCalculator) (v : JSValue) :
    calculateSummary self v = summarize (extractedReadings v) := by
  unfold calculateSummary extractedReadings summarize
  rcases dataMissing_ok v with h | ⟨h, ht⟩
  · simp [h, bind, Except.bind, pure, Except.pure, resetCounts, new, getCounts]
  · obtain ⟨vals, hv, hvt⟩ := extractIndicatorValues_ok v ht
    obtain ⟨es, hes⟩ := objectEntries_of_truthy vals hvt
    simp only [h, hv, hes, bind, Except.bind, pure, Except.pure]
    cases es with
    | nil => simp [resetCounts, new, getCounts]
    | cons e es =>
      have hf := foldlM_processEntry (e :: es) (resetCounts self)
      simp only [List.length_cons, Nat.succ_ne_zero, beq_iff_eq, if_false,
        Bool.false_eq_true, Nat.add_one_ne_zero]
      rw [hf]
      split_ifs <;> simp [resetCounts, new]

/-- When every extracted value converts to a string the call returns. -/
theorem summarize_of_converts (es : List (String × JSValue))
    (h : es.all (fun e => e.2.convertsToString) = true) :
    summarize es = .ok ((es.foldl countEntry new).getCounts, es.foldl countEntry new) := by
  simp only [summarize, h, if_true]

theorem summarize_ok (es : List (String × JSValue))
    (r : SummaryCounts × IndicatorSummaryCalculator) (h : summarize es = .ok r) :
    es.all (fun e => e.2.convertsToString) = true ∧
      r = ((es.foldl countEntry new).getCounts, es.foldl countEntry new) := by
  unfold summarize at h
  split_ifs at h with hc
  · exact ⟨hc, by injection h with h; exact h.symm⟩

theorem analyzeRSI_step (s : IndicatorSummaryCalculator) (name : String) (v : JSNum) :
    OneStep s (analyzeRSI s name v) := by
  unfold analyzeRSI OneStep; split_ifs <;> simp

theorem analyzeStochastic_step (s : IndicatorSummaryCalculator) (name : String) (v : JSNum) :
    OneStep s (analyzeStochastic s name v) := by
  unfold analyzeStochastic OneStep; split_ifs <;> simp

theorem analyzeWilliamsR_step (s : IndicatorSummaryCalculator) (name : String) (v : JSNum) :
    OneStep s (analyzeWilliamsR s name v) := by
  unfold analyzeWilliamsR OneStep; split_ifs <;> simp

theorem analyzeCCI_step (s : IndicatorSummaryCalculator) (name : String) (v : JSNum) :
    OneStep s (analyzeCCI s name v) := by
  unfold analyzeCCI OneStep; split_ifs <;> simp

theorem analyzeMoneyFlowIndex_step (s : IndicatorSummaryCalculator) (name : String)
    (v : JSNum) : OneStep s (analyzeMoneyFlowIndex s name v) := by
  unfold analyzeMoneyFlowIndex OneStep; split_ifs <;> simp

theorem analyzeADX_step (s : IndicatorSummaryCalculator) (name : String) (v : JSNum) :
    OneStep s (analyzeADX s name v) := by
  unfold analyzeADX OneStep; split_ifs <;> simp

theorem analyzeFearGreedIndex_step (s : IndicatorSummaryCalculator) (name : String)
    (v : JSNum) : OneStep s (analyzeFearGreedIndex s name v) := by
  unfold analyzeFearGreedIndex OneStep; split_ifs <;> simp

theorem analyzeCorrelation_step (s : IndicatorSummaryCalculator) (name : String)
    (v : JSNum) : OneStep s (analyzeCorrelation s name v) := by
  unfold analyzeCorrelation OneStep; split_ifs <;> simp

theorem analyzeRateOfChange_step (s : IndicatorSummaryCalculator) (name : String)
    (v : JSNum) : OneStep s (analyzeRateOfChange s name v) := by
  unfold analyzeRateOfChange OneStep; split_ifs <;> simp

/-- Every family rule, and so `analyzeIndicator`, adds one to exactly one of
the three classification counters. -/
theorem analyzeIndicator_cases (self : IndicatorSummaryCalculator) (name : String)
    (value : JSNum) : OneStep self (analyzeIndicator self name value) := by
  unfold analyzeIndicator
  split_ifs
  · exact analyzeRSI_step _ _ _
  · exact Or.inr (Or.inr rfl)
  · exact analyzeStochastic_step _ _ _
  · exact analyzeWilliamsR_step _ _ _
  · exact analyzeCCI_step _ _ _
  · exact analyzeMoneyFlowIndex_step _ _ _
  · exact analyzeADX_step _ _ _
  · exact analyzeFearGreedIndex_step _ _ _
  · exact analyzeCorrelation_step _ _ _
  · exact analyzeRateOfChange_step _ _ _
  · exact Or.inr (Or.inr rfl)

theorem countEntry_num (s : IndicatorSummaryCalculator) (name : String) (n : JSNum) :
    countEntry s (name, JSValue.num n) =
      if n.isNaN then s else (analyzeIndicator s name n).incTotal := by
  cases h : n.isNaN <;> simp [countEntry, h]

theorem countEntry_skip (s : IndicatorSummaryCalculator) (e : String × JSValue)
    (h : e.2.isCountable = false) : countEntry s e = s := by
  obtain ⟨name, v⟩ := e
  cases v <;> simp [countEntry]
  case num n =>
    intro hn
    simp [JSValue.isCountable, hn] at h

theorem countEntry_count (s : IndicatorSummaryCalculator) (e : String × JSValue)
    (h : e.2.isCountable = true) :
    ∃ n, e.2 = JSValue.num n ∧ countEntry s e = (analyzeIndicator s e.1 n).incTotal := by
  obtain ⟨name, v⟩ := e
  cases v <;> simp [JSValue.isCountable] at h
  case num n => exact ⟨n, rfl, by simp [countEntry_num, h]⟩

theorem countEntry_balanced (s : IndicatorSummaryCalculator) (e : String × JSValue)
    (h : Balanced s) : Balanced (countEntry s e) := by
  cases hc : e.2.isCountable
  · rw [countEntry_skip s e hc]; exact h
  · obtain ⟨n, -, hn⟩ := countEntry_count s e hc
    rw [hn]
    rcases analyzeIndicator_cases s e.1 n with h1 | h1 | h1 <;>
      rw [h1] <;> simp only [Balanced, incUp, incDown, incNeutral, incTotal] at * <;> omega

theorem foldl_countEntry_balanced (es : List (String × JSValue)) :
    ∀ s, Balanced s → Balanced (es.foldl countEntry s) := by
  induction es with
  | nil => intro s h; exact h
  | cons e es ih => intro s h; exact ih _ (countEntry_balanced s e h)

theorem countEntry_total (s : IndicatorSummaryCalculator) (e : String × JSValue) :
    (countEntry s e).totalCount = s.totalCount + (if e.2.isCountable then 1 else 0) := by
  cases hc : e.2.isCountable
  · rw [countEntry_skip s e hc]; simp
  · obtain ⟨n, -, hn⟩ := countEntry_count s e hc
    rw [hn]
    rcases analyzeIndicator_cases s e.1 n with h1 | h1 | h1 <;>
      rw [h1] <;> simp [incUp, incDown, incNeutral, incTotal]

theorem foldl_countEntry_total (es : List (String × JSValue)) :
    ∀ s, (es.foldl countEntry s).totalCount =
      s.totalCount + es.countP (fun e => e.2.isCountable) := by
  induction es with
  | nil => intro s; simp
  | cons e es ih =>
    intro s
    rw [List.foldl_cons, ih, countEntry_total, List.countP_cons]
    omega

/-! ## The claims -/

/-- The call returns exactly when every value the loop visits converts to a
string. -/
theorem calculateSummary_returns_iff (self : IndicatorSummaryCalculator)
    (indicatorsData : JSValue) :
    (∃ r, calculateSummary self indicatorsData = .ok r) ↔
      loggable indicatorsData = true := by
  rw [calculateSummary_eq_fold]
  unfold loggable
  constructor
  · rintro ⟨r, hr⟩
    exact (summarize_ok _ r hr).1
  · intro h
    exact ⟨_, summarize_of_converts _ h⟩

/-- C1: for every input and every calculator state before the call, the
counts `calculateSummary` returns satisfy
`upCount + downCount + neutralCount = totalCount`; the call returns whenever
every value the loop visits converts to a string. -/
theorem calculateSummary_counts_balanced (self : IndicatorSummaryCalculator)
    (indicatorsData : JSValue) :
    (∀ r, calculateSummary self indicatorsData = .ok r →
      r.1.upCount + r.1.downCount + r.1.neutralCount = r.1.totalCount) ∧
    (loggable indicatorsData = true → ∃ r, calculateSummary self indicatorsData = .ok r) := by
  constructor
  · intro r hr
    rw [calculateSummary_eq_fold] at hr
    rw [(summarize_ok _ r hr).2]
    exact foldl_countEntry_balanced (extractedReadings indicatorsData) new rfl
  · exact (calculateSummary_returns_iff self indicatorsData).mpr

/-- C1 at `{indicators: [], analysis: {rsi: {value: 75}}}`: the call returns
the counts 0, 1, 0, 1. -/
theorem calculateSummary_counts_balanced_witness :
    loggable analysisInput = true ∧
    ∃ r, calculateSummary new analysisInput = .ok r ∧
      r.1 = { upCount := 0, downCount := 1, neutralCount := 0, totalCount := 1 } ∧
      r.1.upCount + r.1.downCount + r.1.neutralCount = r.1.totalCount :=
  ⟨rfl, _, rfl, rfl, (calculateSummary_counts_balanced new analysisInput).1 _ rfl⟩

/-- C2, as stated, fails: on `{indicators: [], analysis: {rsi: {value: Infinity}}}`
the only reading is `rsi = Infinity`, no reading is finite, and yet
`totalCount` is 1. -/
theorem calculateSummary_counts_infinity :
    ∃ r, calculateSummary new infinityInput = .ok r ∧
      extractedReadings infinityInput = [("rsi", .num .posInf)] ∧
      finiteReadingCount (extractedReadings infinityInput) = 0 ∧
      r.1.totalCount = 1 ∧
      r.1.totalCount ≠ finiteReadingCount (extractedReadings infinityInput) :=
  ⟨_, rfl, rfl, rfl, rfl, by decide⟩

/-- C3, on the code: for the all-zero counts `updateDetailedSummary` shows
the label '中立' (neutral), not 'データ不足' (insufficient data). -/
theorem updateDetailedSummary_zero_counts :
    updateDetailedSummaryRecommendation 0 0 0 0 = "中立" ∧
      updateDetailedSummaryRecommendation 0 0 0 0 ≠ "データ不足" := by
  decide

/-- C8, on the code: for
`{indicators: [], analysis: {x: {value: {toString: 0}}}}` the log statement
at the head of the loop converts the value to a string, the conversion raises
a `TypeError`, and the call does not return, whatever the calculator state. -/
theorem calculateSummary_throws_on_toString (self : IndicatorSummaryCalculator) :
    extractedReadings toStringInput = [("x", .obj [("toString", .num (.fin 0))])] ∧
    (JSValue.obj [("toString", .num (.fin 0))]).convertsToString = false ∧
    (JSValue.obj [("toString", .num (.fin 0))]).isCountable = false ∧
    calculateSummary self toStringInput = .error .typeError := by
  refine ⟨rfl, rfl, rfl, ?_⟩
  rw [calculateSummary_eq_fold]
  rfl

/-- C9: when the input is falsy, or its `indicators` or `analysis` field is
missing or falsy, or no indicator value could be extracted, `calculateSummary`
returns all four counts zero. -/
theorem calculateSummary_missing_data (self : IndicatorSummaryCalculator)
    (indicatorsData : JSValue)
    (h : indicatorsData.truthy = false ∨
      (∃ x, indicatorsData.getProp "indicators" = .ok x ∧ x.truthy = false) ∨
      (∃ x, indicatorsData.getProp "analysis" = .ok x ∧ x.truthy = false) ∨
      (∃ vals, extractIndicatorValues indicatorsData = .ok vals ∧
        vals.objectEntries = .ok [])) :
    ∃ after, calculateSummary self indicatorsData = .ok (zeroCounts, after) := by
  have key : extractedReadings indicatorsData = [] := by
    unfold extractedReadings
    rcases dataMissing_ok indicatorsData with hm | ⟨hm, ht⟩
    · simp [hm]
    · rcases h with h | ⟨x, hx, hxt⟩ | ⟨x, hx, hxt⟩ | ⟨vals, hv, he⟩
      · simp [ht] at h
      · simp [dataMissing, ht, hx, hxt, bind, Except.bind, pure, Except.pure] at hm
      · obtain ⟨y, hy⟩ := getProp_of_truthy indicatorsData "indicators" ht
        by_cases hyt : y.truthy = true <;>
          simp [dataMissing, ht, hx, hxt, hy, hyt, bind, Except.bind, pure,
            Except.pure] at hm
      · simp [hm, hv, he]
  refine ⟨new, ?_⟩
  rw [calculateSummary_eq_fold, key]
  rfl

/-- C9 at concrete inputs: `null`, `undefined`, an object without `analysis`,
and `{indicators: [], analysis: {}}` all give zero counts. -/
theorem calculateSummary_missing_data_witness :
    (JSValue.null.truthy = false ∧
      ∃ after, calculateSummary new .null = .ok (zeroCounts, after)) ∧
    (∃ after, calculateSummary new .undefined = .ok (zeroCounts, after)) ∧
    (∃ after, calculateSummary new snapshotInput = .ok (zeroCounts, after)) ∧
    (∃ after, calculateSummary new emptyAnalysisInput = .ok (zeroCounts, after)) :=
  ⟨⟨rfl, calculateSummary_missing_data new .null (Or.inl rfl)⟩,
   calculateSummary_missing_data new .undefined (Or.inl rfl),
   calculateSummary_missing_data new snapshotInput
     (Or.inr (Or.inr (Or.inl ⟨.undefined, rfl, rfl⟩))),
   calculateSummary_missing_data new emptyAnalysisInput
     (Or.inr (Or.inr (Or.inr ⟨.obj [], rfl, rfl⟩)))⟩

theorem lookup_mem (props : List (String × JSValue)) (k : String) (x : JSValue)
    (h : props.lookup k = some x) : (k, x) ∈ props := by
  induction props with
  | nil => simp [List.lookup] at h
  | cons p ps ih =>
    obtain ⟨k2, v⟩ := p
    by_cases hk : k = k2
    · subst hk
      simp [List.lookup] at h
      simp [h]
    · have hb : (k == k2) = false := by simpa using hk
      simp only [List.lookup, hb] at h
      exact List.mem_cons_of_mem _ (ih h)

theorem getProp_flat (props : List (String × JSValue)) (k : String)
    (h : ∀ p ∈ props, ∃ n, p.2 = JSValue.num n) :
    ∃ x, (JSValue.obj props).getProp k = .ok x ∧ x.typeofObject = false ∧
      x.isArray = false := by
  cases hl : props.lookup k with
  | none => exact ⟨.undefined, by simp [JSValue.getProp, hl], rfl, rfl⟩
  | some x =>
    obtain ⟨n, hn⟩ := h _ (lookup_mem props k x hl)
    simp only at hn
    subst hn
    exact ⟨.num n, by simp [JSValue.getProp, hl], rfl, rfl⟩

/-- C4, as stated, fails: the flat mapping `{rsi: 75, adx: 30}` has two
finite-numeric entries, and `calculateSummary` returns all-zero counts. -/
theorem flatMapping_not_counted :
    finiteReadingCount flatMapping = 2 ∧
    ∃ r, calculateSummary new (.obj flatMapping) = .ok r ∧ r.1 = zeroCounts ∧
      r.1.totalCount ≠ finiteReadingCount flatMapping :=
  ⟨rfl, _, rfl, rfl, by decide⟩

/-- C4, amended: for every flat mapping of indicator name to number,
`calculateSummary` returns all-zero counts; the entries are not counted. -/
theorem calculateSummary_flat_mapping (self : IndicatorSummaryCalculator)
    (props : List (String × JSValue))
    (h : ∀ p ∈ props, ∃ n, p.2 = JSValue.num n) :
    ∃ after, calculateSummary self (.obj props) = .ok (zeroCounts, after) := by
  have key : extractedReadings (.obj props) = [] := by
    unfold extractedReadings
    rcases dataMissing_ok (.obj props) with hm | ⟨hm, -⟩
    · simp [hm]
    · obtain ⟨a, ha, hao, -⟩ := getProp_flat props "analysis" h
      obtain ⟨i, hi, -, hia⟩ := getProp_flat props "indicators" h
      simp [hm, extractIndicatorValues, ha, hi, hao, hia, bind, Except.bind, pure,
        Except.pure, JSValue.objectEntries]
  refine ⟨new, ?_⟩
  rw [calculateSummary_eq_fold, key]
  rfl

/-- C4 amended, at `{rsi: 75, adx: 30}`. -/
theorem calculateSummary_flat_mapping_witness :
    (∀ p ∈ flatMapping, ∃ n, p.2 = JSValue.num n) ∧
    ∃ after, calculateSummary new (.obj flatMapping) = .ok (zeroCounts, after) :=
  ⟨by simp [flatMapping],
   calculateSummary_flat_mapping new flatMapping (by simp [flatMapping])⟩

/-- C5, on the code: for the snapshot array
`{indicators: [{values: {rsi: 20}}, {values: {rsi: 75}}]}` the guard returns
early because `analysis` is missing, so all counts are zero, while classifying
the last snapshot's `values` gives one down reading. -/
theorem calculateSummary_snapshot_array_zero :
    (∃ r, calculateSummary new snapshotInput = .ok r ∧ r.1 = zeroCounts) ∧
    ([("rsi", JSValue.num (.fin 75))].foldl countEntry new).getCounts =
      { upCount := 0, downCount := 1, neutralCount := 0, totalCount := 1 } :=
  ⟨⟨_, rfl, rfl⟩, by decide⟩

theorem dispatchInOrder_nil (self : IndicatorSummaryCalculator) (name : String)
    (value : JSNum) : dispatchInOrder [] self name value = self.incNeutral := rfl

theorem dispatchInOrder_cons (kw : String) (rule : FamilyRule)
    (rest : List (String × FamilyRule)) (self : IndicatorSummaryCalculator)
    (name : String) (value : JSNum) :
    dispatchInOrder ((kw, rule) :: rest) self name value =
      if includes name kw then rule self name value
      else dispatchInOrder rest self name value := by
  cases h : includes name kw <;> simp [dispatchInOrder, List.find?, h]

/-- C6, as stated, fails: the name `stochastic_macd` contains both keywords,
the specification's order would apply the stochastic rule (90 gives down), and
`analyzeIndicator` applies the macd rule (neutral). -/
theorem analyzeIndicator_macd_before_stochastic :
    includes "stochastic_macd" "stochastic" = true ∧
    includes "stochastic_macd" "macd" = true ∧
    dispatchInOrder specFamilyOrder new "stochastic_macd" (.fin 90) = new.incDown ∧
    analyzeIndicator new "stochastic_macd" (.fin 90) = new.incNeutral ∧
    analyzeIndicator new "stochastic_macd" (.fin 90) ≠
      dispatchInOrder specFamilyOrder new "stochastic_macd" (.fin 90) := by
  decide

/-- C6, amended: the classifier tests the keywords in the order rsi, macd,
stochastic, williams_r, cci, money_flow_index, adx, fear_greed_index,
correlation, rate_of_change, and the first keyword the name contains decides
the rule; a name containing none is neutral. -/
theorem analyzeIndicator_first_match (self : IndicatorSummaryCalculator) (name : String)
    (value : JSNum) :
    analyzeIndicator self name value =
      dispatchInOrder sourceFamilyOrder self name value := by
  simp only [analyzeIndicator, sourceFamilyOrder, dispatchInOrder_cons,
    dispatchInOrder_nil]

/-- C7: for every name containing both `rsi` and `stochastic`, the rsi rule
decides: a value in (70, 80] is down and a value in [20, 30) is up. -/
theorem analyzeIndicator_rsi_over_stochastic (self : IndicatorSummaryCalculator)
    (name : String) (q : ℚ)
    (hr : includes name "rsi" = true) (_hs : includes name "stochastic" = true) :
    (∀ v, analyzeIndicator self name v = analyzeRSI self name v) ∧
    (70 < q ∧ q ≤ 80 → analyzeIndicator self name (.fin q) = self.incDown) ∧
    (20 ≤ q ∧ q < 30 → analyzeIndicator self name (.fin q) = self.incUp) := by
  have h0 : ∀ v, analyzeIndicator self name v = analyzeRSI self name v := by
    intro v; simp [analyzeIndicator, hr]
  refine ⟨h0, ?_, ?_⟩
  · rintro ⟨h1, -⟩
    simp [h0, analyzeRSI, JSNum.gt, h1]
  · rintro ⟨-, h2⟩
    have h3 : ¬ (70 < q) := by linarith
    simp [h0, analyzeRSI, JSNum.gt, JSNum.lt, h2, h3]

/-- C7 at the name `stochastic_rsi_14`: 75 is down and 25 is up. -/
theorem analyzeIndicator_rsi_over_stochastic_witness :
    includes "stochastic_rsi_14" "rsi" = true ∧
    includes "stochastic_rsi_14" "stochastic" = true ∧
    analyzeIndicator new "stochastic_rsi_14" (.fin 75) = new.incDown ∧
    analyzeIndicator new "stochastic_rsi_14" (.fin 25) = new.incUp :=
  ⟨by decide, by decide,
   (analyzeIndicator_rsi_over_stochastic new "stochastic_rsi_14" 75 (by decide)
      (by decide)).2.1 ⟨by norm_num, by norm_num⟩,
   (analyzeIndicator_rsi_over_stochastic new "stochastic_rsi_14" 25 (by decide)
      (by decide)).2.2 ⟨by norm_num, by norm_num⟩⟩

theorem setProp_fresh (acc : List (String × JSValue)) (name : String) (v : JSValue)
    (h1 : name ≠ "__proto__") (h2 : ∀ p ∈ acc, p.1 ≠ name) :
    setProp acc name v = acc ++ [(name, v)] := by
  have h3 : acc.any (fun p => p.1 == name) = false := by
    rw [List.any_eq_false]
    intro p hp
    simpa using h2 p hp
  simp [setProp, h1, h3]

theorem readingOf_fst (e r : String × JSValue) (h : readingOf e = some r) : r.1 = e.1 := by
  unfold readingOf at h
  split_ifs at h
  split at h
  · split_ifs at h
    simp at h
    rw [← h]
  · simp at h

theorem collectValue_eq (acc : List (String × JSValue)) (e : String × JSValue)
    (h : ∀ p ∈ acc, p.1 ≠ e.1) :
    collectValue acc e = .ok (acc ++ (readingOf e).toList) := by
  unfold collectValue readingOf
  by_cases ht : e.2.truthy = true
  · obtain ⟨x, hx⟩ := getProp_of_truthy e.2 "value" ht
    simp only [ht, hx, if_true, bind, Except.bind, pure, Except.pure]
    by_cases hd : x.isDefined = true
    · by_cases hp : e.1 = "__proto__"
      · simp [hd, hp, setProp]
      · simp [hd, hp, setProp_fresh acc e.1 x hp h]
    · by_cases hp : e.1 = "__proto__" <;> simp [hd, hp]
  · by_cases hp : e.1 = "__proto__" <;> simp [ht, hp, pure, Except.pure]

theorem foldlM_collectValue_eq (es : List (String × JSValue)) :
    ∀ acc, (es.map Prod.fst).Nodup → (∀ p ∈ acc, ∀ e ∈ es, p.1 ≠ e.1) →
      es.foldlM collectValue acc = .ok (acc ++ es.filterMap readingOf) := by
  induction es with
  | nil => intro acc _ _; simp [pure, Except.pure]
  | cons e es ih =>
    intro acc hnd hdis
    have hc := collectValue_eq acc e (fun p hp => hdis p hp e (List.mem_cons_self _ _))
    rw [List.map_cons, List.nodup_cons] at hnd
    have hstep : ∀ p ∈ acc ++ (readingOf e).toList, ∀ e2 ∈ es, p.1 ≠ e2.1 := by
      intro p hp e2 he2
      rcases List.mem_append.mp hp with hp | hp
      · exact hdis p hp e2 (List.mem_cons_of_mem _ he2)
      · cases hr : readingOf e with
        | none => simp [hr] at hp
        | some r =>
          simp [hr] at hp
          subst hp
          rw [readingOf_fst e p hr]
          intro heq
          exact hnd.1 (heq ▸ List.mem_map_of_mem Prod.fst he2)
    rw [List.foldlM_cons, hc]
    show es.foldlM collectValue (acc ++ (readingOf e).toList) = _
    rw [ih _ hnd.2 hstep]
    cases hr : readingOf e <;> simp [List.filterMap_cons, hr]

theorem truthy_of_getProp (x y : JSValue) (k : String) (h : x.getProp k = .ok y)
    (hy : y.isDefined = true) : x.truthy = true := by
  cases x <;> simp [JSValue.getProp] at h <;> first
    | rfl
    | (subst h; simp [JSValue.isDefined] at hy)

theorem dataMissing_eq (v i a : JSValue) (ht : v.truthy = true)
    (hi : v.getProp "indicators" = .ok i) (ha : v.getProp "analysis" = .ok a) :
    dataMissing v = .ok (!i.truthy || !a.truthy) := by
  unfold dataMissing
  simp only [ht, hi, ha, bind, Except.bind, pure, Except.pure]
  cases i.truthy <;> simp

theorem foldl_countEntry_skip (pre post : List (String × JSValue)) (e : String × JSValue)
    (s : IndicatorSummaryCalculator) (h : e.2.isCountable = false) :
    (pre ++ e :: post).foldl countEntry s = (pre ++ post).foldl countEntry s := by
  simp [List.foldl_append, countEntry_skip _ e h]

theorem extractedReadings_analysis (v i : JSValue) (props : List (String × JSValue))
    (hi : v.getProp "indicators" = .ok i)
    (ha : v.getProp "analysis" = .ok (.obj props))
    (hnd : (props.map Prod.fst).Nodup) :
    extractedReadings v = if i.truthy then props.filterMap readingOf else [] := by
  have ht : v.truthy = true := truthy_of_getProp v _ _ ha rfl
  have hf := foldlM_collectValue_eq props [] hnd (by simp)
  unfold extractedReadings
  rw [dataMissing_eq v i _ ht hi ha]
  cases hit : i.truthy
  · simp [JSValue.truthy]
  · simp [JSValue.truthy, extractIndicatorValues, ha, JSValue.typeofObject,
      JSValue.objectEntries, hf, bind, Except.bind, pure, Except.pure]

theorem extractIndicatorValues_of_analysis (v w a : JSValue)
    (hv : v.getProp "analysis" = .ok a) (hw : w.getProp "analysis" = .ok a)
    (h : (a.truthy && a.typeofObject) = true) :
    extractIndicatorValues v = extractIndicatorValues w := by
  simp only [extractIndicatorValues, hv, hw, bind, Except.bind, h, if_true]

theorem lastElement_concat (snaps : List JSValue) (snap : JSValue) :
    (JSValue.arr (snaps ++ [snap])).lastElement = snap := by
  simp [JSValue.lastElement]

theorem extractIndicatorValues_snapshot (v a snap : JSValue) (snaps : List JSValue)
    (vals : List (String × JSValue))
    (ha : v.getProp "analysis" = .ok a) (hobj : (a.truthy && a.typeofObject) = false)
    (hi : v.getProp "indicators" = .ok (.arr (snaps ++ [snap])))
    (hs : snap.getProp "values" = .ok (.obj vals)) :
    extractIndicatorValues v = .ok (.obj vals) := by
  have hst : snap.truthy = true := truthy_of_getProp snap _ _ hs rfl
  simp only [extractIndicatorValues, ha, hi, bind, Except.bind, hobj, lastElement_concat,
    hst, hs]
  simp [JSValue.truthy, JSValue.isArray, pure, Except.pure]

theorem summarize_skip (pre post : List (String × JSValue)) (e : String × JSValue)
    (h : e.2.isCountable = false) (hc : e.2.convertsToString = true) :
    summarize (pre ++ e :: post) = summarize (pre ++ post) := by
  unfold summarize
  simp only [List.all_append, List.all_cons, hc, Bool.true_and,
    foldl_countEntry_skip pre post e _ h]

/-- A reading whose value is not a number, or is `NaN`, and converts to a
string for the log statement, is skipped.  Adding an entry with such a `value`
to `analysis` (names distinct), or adding such an entry to the `values` of the
last snapshot, at any position, leaves the result of `calculateSummary`
unchanged. -/
theorem skips_invalid_loggable (self : IndicatorSummaryCalculator) :
    (∀ (input input2 ind data v : JSValue) (pre post : List (String × JSValue))
        (name : String),
      input.getProp "indicators" = .ok ind →
      input2.getProp "indicators" = .ok ind →
      input.getProp "analysis" = .ok (.obj (pre ++ post)) →
      input2.getProp "analysis" = .ok (.obj (pre ++ (name, data) :: post)) →
      ((pre ++ (name, data) :: post).map Prod.fst).Nodup →
      data.getProp "value" = .ok v → v.isCountable = false →
      v.convertsToString = true →
      calculateSummary self input2 = calculateSummary self input) ∧
    (∀ (input input2 a snap snap2 v : JSValue) (snaps : List JSValue)
        (pre post : List (String × JSValue)) (name : String),
      input.getProp "analysis" = .ok a →
      input2.getProp "analysis" = .ok a →
      input.getProp "indicators" = .ok (.arr (snaps ++ [snap])) →
      input2.getProp "indicators" = .ok (.arr (snaps ++ [snap2])) →
      snap.getProp "values" = .ok (.obj (pre ++ post)) →
      snap2.getProp "values" = .ok (.obj (pre ++ (name, v) :: post)) →
      v.isCountable = false → v.convertsToString = true →
      calculateSummary self input2 = calculateSummary self input) := by
  constructor
  · intro input input2 ind data v pre post name hi hi2 ha ha2 hnd hv hc hs
    have hnd1 : ((pre ++ post).map Prod.fst).Nodup := by
      refine hnd.sublist (List.Sublist.map _ ?_)
      exact List.Sublist.append_left (List.sublist_cons_self _ _) _
    have hr : ∀ r, readingOf (name, data) = some r →
        r.2.isCountable = false ∧ r.2.convertsToString = true := by
      intro r hr
      unfold readingOf at hr
      simp only [hv] at hr
      split_ifs at hr
      simp at hr
      rw [← hr]; exact ⟨hc, hs⟩
    rw [calculateSummary_eq_fold, calculateSummary_eq_fold,
      extractedReadings_analysis input ind _ hi ha hnd1,
      extractedReadings_analysis input2 ind _ hi2 ha2 hnd]
    cases ind.truthy
    · rfl
    · simp only [if_true, List.filterMap_append, List.filterMap_cons]
      cases hro : readingOf (name, data) with
      | none => rfl
      | some r => exact summarize_skip _ _ r (hr r hro).1 (hr r hro).2
  · intro input input2 a snap snap2 v snaps pre post name ha ha2 hi hi2 hs hs2 hc hcs
    have ht : input.truthy = true := truthy_of_getProp input _ _ hi rfl
    have ht2 : input2.truthy = true := truthy_of_getProp input2 _ _ hi2 rfl
    rw [calculateSummary_eq_fold, calculateSummary_eq_fold]
    unfold extractedReadings
    rw [dataMissing_eq input _ a ht hi ha, dataMissing_eq input2 _ a ht2 hi2 ha2]
    cases hat : a.truthy
    · simp [JSValue.truthy]
    · cases hobj : (a.truthy && a.typeofObject)
      · rw [extractIndicatorValues_snapshot input a snap snaps _ ha hobj hi hs,
          extractIndicatorValues_snapshot input2 a snap2 snaps _ ha2 hobj hi2 hs2]
        simp only [JSValue.truthy, JSValue.objectEntries, Bool.not_true, Bool.or_false]
        exact summarize_skip pre post (name, v) hc hcs
      · rw [extractIndicatorValues_of_analysis input2 input a ha2 ha hobj]
        simp only [JSValue.truthy]

/-- Adding `note: {value: 'n/a'}` to `analysis`, or `macd: NaN` to the last
snapshot's `values`, changes nothing; the counts stay at one down reading. -/
theorem skips_invalid_loggable_examples :
    (calculateSummary new analysisInputWithText = calculateSummary new analysisInput ∧
      ∃ r, calculateSummary new analysisInput = .ok r ∧
        r.1 = { upCount := 0, downCount := 1, neutralCount := 0, totalCount := 1 }) ∧
    (calculateSummary new legacyInputWithNaN = calculateSummary new legacyInput ∧
      ∃ r, calculateSummary new legacyInput = .ok r ∧
        r.1 = { upCount := 0, downCount := 1, neutralCount := 0, totalCount := 1 }) :=
  ⟨⟨(skips_invalid_loggable new).1 analysisInput analysisInputWithText
      (.arr []) (.obj [("value", .str "n/a")]) (.str "n/a")
      [] [("rsi", .obj [("value", .num (.fin 75))])] "note"
      rfl rfl rfl rfl (by decide) rfl rfl rfl,
    _, rfl, rfl⟩,
   ⟨(skips_invalid_loggable new).2 legacyInput legacyInputWithNaN
      (.bool true) (.obj [("values", .obj [("rsi", .num (.fin 75))])])
      (.obj [("values", .obj [("rsi", .num (.fin 75)), ("macd", .num .nan)])])
      (.num .nan) [] [("rsi", .num (.fin 75))] [] "macd"
      rfl rfl rfl rfl rfl rfl rfl rfl,
    _, rfl, rfl⟩⟩

/-- C10, on the code: `{value: {toString: 0}}` is a reading whose value is
an object, not a number.  Without it the call returns the counts 0, 1, 0, 1;
with it added to `analysis` the log statement raises a `TypeError` before the
type test that would skip the reading, and the call returns nothing. -/
theorem calculateSummary_throws_on_added_object :
    (∃ r, calculateSummary new analysisInput = .ok r ∧
      r.1 = { upCount := 0, downCount := 1, neutralCount := 0, totalCount := 1 }) ∧
    extractedReadings analysisInputWithObject =
      [("rsi", .num (.fin 75)), ("note", .obj [("toString", .num (.fin 0))])] ∧
    (JSValue.obj [("toString", .num (.fin 0))]).isCountable = false ∧
    calculateSummary new analysisInputWithObject = .error .typeError :=
  ⟨⟨_, rfl, rfl⟩, rfl, rfl, rfl⟩

/-! ## Double arithmetic -/

theorem roundHalfEven_sub_le (x : ℚ) : |(roundHalfEven x : ℚ) - x| ≤ 1 / 2 := by
  have h1 := Int.floor_le x
  have h2 := Int.lt_floor_add_one x
  unfold roundHalfEven
  rw [abs_le]
  split_ifs <;> push_cast <;> constructor <;> linarith

theorem roundHalfEven_eq (x : ℚ) (n : ℤ) (h1 : (n : ℚ) - 1 / 2 < x)
    (h2 : x < (n : ℚ) + 1 / 2) : roundHalfEven x = n := by
  have hf1 := Int.floor_le x
  have hf2 := Int.lt_floor_add_one x
  have key : ∀ m : ℤ, |(m : ℚ) - x| ≤ 1 / 2 → m = n := by
    intro m hm
    rw [abs_le] at hm
    have ha : ((m - n : ℤ) : ℚ) < 1 := by push_cast; linarith [hm.2]
    have hb : (-1 : ℚ) < ((m - n : ℤ) : ℚ) := by push_cast; linarith [hm.1]
    have ha2 : m - n < 1 := by exact_mod_cast ha
    have hb2 : -1 < m - n := by exact_mod_cast hb
    omega
  exact key _ (roundHalfEven_sub_le x)

theorem log_two_eq (x : ℚ) (e : ℤ) (h1 : (2 : ℚ) ^ e ≤ x) (h2 : x < (2 : ℚ) ^ (e + 1)) :
    Int.log 2 x = e := by
  have hx : 0 < x := lt_of_lt_of_le (by positivity) h1
  have hb : 1 < 2 := by norm_num
  have ha : e ≤ Int.log 2 x :=
    (Int.zpow_le_iff_le_log hb hx).mp (by simpa using h1)
  have hc : Int.log 2 x < e + 1 :=
    (Int.lt_zpow_iff_log_lt hb hx).mp (by simpa using h2)
  omega

theorem toDouble_of_pos (x : ℚ) (hx : 0 < x) :
    toDouble x =
      roundHalfEven (x / 2 ^ (Int.log 2 x - 52)) * 2 ^ (Int.log 2 x - 52) := by
  unfold toDouble
  rw [if_neg hx.ne', abs_of_pos hx]

theorem toDouble_of_binade (x : ℚ) (e : ℤ) (h1 : (2 : ℚ) ^ e ≤ x)
    (h2 : x < (2 : ℚ) ^ (e + 1)) :
    toDouble x = roundHalfEven (x / 2 ^ (e - 52)) * 2 ^ (e - 52) := by
  have hx : 0 < x := lt_of_lt_of_le (by positivity) h1
  rw [toDouble_of_pos x hx, log_two_eq x e h1 h2]

/-- One rounding to a double moves a positive value by at most the fraction
`2^-53` of it. -/
theorem toDouble_sub_le (x : ℚ) (hx : 0 < x) : |toDouble x - x| ≤ x / 2 ^ 53 := by
  have hb : 1 < 2 := by norm_num
  have hlog : (2 : ℚ) ^ Int.log 2 x ≤ x := by
    simpa using Int.zpow_log_le_self (R := ℚ) hb hx
  set e := Int.log 2 x with he
  have hs : (0 : ℚ) < 2 ^ (e - 52) := by positivity
  have hr := roundHalfEven_sub_le (x / 2 ^ (e - 52))
  have hsplit : (2 : ℚ) ^ (e - 52) = 2 ^ e / 2 ^ 52 := by
    rw [zpow_sub₀ (by norm_num : (2 : ℚ) ≠ 0)]
    norm_cast
  have heq : toDouble x - x =
      ((roundHalfEven (x / 2 ^ (e - 52)) : ℚ) - x / 2 ^ (e - 52)) * 2 ^ (e - 52) := by
    rw [toDouble_of_pos x hx, sub_mul, div_mul_cancel₀ _ hs.ne']
  rw [heq, abs_mul, abs_of_pos hs]
  calc |(roundHalfEven (x / 2 ^ (e - 52)) : ℚ) - x / 2 ^ (e - 52)| * 2 ^ (e - 52)
      ≤ 1 / 2 * 2 ^ (e - 52) := mul_le_mul_of_nonneg_right hr hs.le
    _ = 2 ^ e / 2 ^ 53 := by rw [hsplit]; ring
    _ ≤ x / 2 ^ 53 := div_le_div_of_nonneg_right hlog (by positivity)

theorem toDouble_pos (x : ℚ) (hx : 0 < x) : 0 < toDouble x := by
  have h := toDouble_sub_le x hx
  rw [abs_le] at h
  have hlt : x / 2 ^ 53 < x := div_lt_self hx (by norm_num)
  linarith [h.1]

/-- The double product `(count / totalCount) * 100` lies within `1 / (2 * totalCount)`
of the exact value `100 * count / totalCount`, for counts up to `2^44`. -/
theorem percentage_error (k t : Nat) (hk : 0 < k) (ht : 0 < t) (hk2 : k ≤ 2 ^ 44) :
    |toDouble (toDouble ((k : ℚ) / (t : ℚ)) * 100) - 100 * (k : ℚ) / (t : ℚ)| <
      1 / (2 * (t : ℚ)) := by
  have hkq : (0 : ℚ) < k := by exact_mod_cast hk
  have htq : (0 : ℚ) < t := by exact_mod_cast ht
  have hk2q : (k : ℚ) ≤ 2 ^ 44 := by exact_mod_cast hk2
  have hx : (0 : ℚ) < (k : ℚ) / t := div_pos hkq htq
  set x : ℚ := (k : ℚ) / t with hxdef
  have hy := toDouble_sub_le x hx
  have hypos := toDouble_pos x hx
  set y := toDouble x with hydef
  have hz : (0 : ℚ) < y * 100 := by positivity
  have hp := toDouble_sub_le (y * 100) hz
  set p := toDouble (y * 100) with hpdef
  rw [abs_le] at hy hp
  have hxt : x * t = k := by rw [hxdef]; field_simp
  have e1 : 100 * (k : ℚ) / t = 100 * x := by rw [hxdef]; ring
  have e2 : 1 / (2 * (t : ℚ)) = 1 / 2 / t := by field_simp
  have hbound : 100 * x * (5 / 2 / 2 ^ 53) < 1 / (2 * (t : ℚ)) := by
    rw [e2, lt_div_iff₀ htq]
    have : 100 * x * (5 / 2 / 2 ^ 53) * t = 100 * (k : ℚ) * (5 / 2 / 2 ^ 53) := by
      rw [← hxt]; ring
    rw [this]
    have h3 : 100 * (k : ℚ) * (5 / 2 / 2 ^ 53) ≤ 100 * 2 ^ 44 * (5 / 2 / 2 ^ 53) := by
      have : (0 : ℚ) ≤ 3 / 2 ^ 53 := by positivity
      nlinarith
    have h4 : (100 : ℚ) * 2 ^ 44 * (5 / 2 / 2 ^ 53) < 1 / 2 := by norm_num
    linarith
  have hy2 : y ≤ 3 / 2 * x := by
    have : x / 2 ^ 53 ≤ x / 2 := by
      apply div_le_div_of_nonneg_left hx.le (by norm_num) (by norm_num)
    linarith [hy.2]
  have hsmall : (y * 100) / 2 ^ 53 ≤ 100 * x * (3 / 2 / 2 ^ 53) := by
    rw [div_le_iff₀ (by positivity)]
    have : 100 * x * (3 / 2 / 2 ^ 53) * 2 ^ 53 = 150 * x := by field_simp; ring
    rw [this]; linarith
  have hx53 : 100 * (x / 2 ^ 53) = 100 * x * (1 / 2 ^ 53) := by ring
  rw [e1, abs_lt]
  constructor
  · have : -(100 * x * (5 / 2 / 2 ^ 53)) ≤ p - 100 * x := by
      have h5 : 100 * x * (5 / 2 / 2 ^ 53) = 100 * x * (3 / 2 / 2 ^ 53) + 100 * x * (1 / 2 ^ 53) := by
        ring
      linarith [hp.1, hy.1]
    linarith
  · have : p - 100 * x ≤ 100 * x * (5 / 2 / 2 ^ 53) := by
      have h5 : 100 * x * (5 / 2 / 2 ^ 53) = 100 * x * (3 / 2 / 2 ^ 53) + 100 * x * (1 / 2 ^ 53) := by
        ring
      linarith [hp.2, hy.2]
    linarith

/-- A value within `1 / (2 t)` of a fraction `n / t` that is not halfway
between two integers rounds to the same integer as the fraction. -/
theorem mathRound_stable (n t : Nat) (ht : 0 < t) (p : ℚ)
    (hp : |p - (n : ℚ) / (t : ℚ)| < 1 / (2 * (t : ℚ)))
    (hhalf : ∀ m : ℤ, (2 * (n : ℤ)) ≠ (2 * m + 1) * (t : ℤ)) :
    mathRound p = ⌊(n : ℚ) / (t : ℚ) + 1 / 2⌋ := by
  have htq : (0 : ℚ) < t := by exact_mod_cast ht
  set X : ℚ := (n : ℚ) / t with hX
  have hXt : X * t = n := by rw [hX]; field_simp
  set m : ℤ := ⌊X + 1 / 2⌋ with hm
  have h1 : (m : ℚ) ≤ X + 1 / 2 := Int.floor_le _
  have h2 : X + 1 / 2 < m + 1 := Int.lt_floor_add_one _
  have e2 : 1 / (2 * (t : ℚ)) * (2 * t) = 1 := by field_simp
  -- both distances to the neighbouring half-integers are at least 1 / (2 t)
  have hlow : (2 * m * (t : ℤ) : ℤ) + 1 ≤ 2 * (n : ℤ) + t := by
    have hle : (2 * m * (t : ℤ) : ℤ) ≤ 2 * (n : ℤ) + t := by
      have : (2 * (m : ℚ) * t) ≤ 2 * (n : ℚ) + t := by
        have := mul_le_mul_of_nonneg_right h1 (by positivity : (0 : ℚ) ≤ 2 * t)
        nlinarith
      exact_mod_cast this
    have hne : (2 * m * (t : ℤ) : ℤ) ≠ 2 * (n : ℤ) + t := by
      intro heq
      apply hhalf (m - 1)
      linarith
    omega
  have hhigh : (2 * (n : ℤ) : ℤ) + 1 ≤ 2 * m * (t : ℤ) + t := by
    have hlt : (2 * (n : ℤ) : ℤ) < 2 * m * (t : ℤ) + t := by
      have : (2 * (n : ℚ)) < 2 * (m : ℚ) * t + t := by
        have := mul_lt_mul_of_pos_right h2 (by positivity : (0 : ℚ) < 2 * t)
        nlinarith
      exact_mod_cast this
    omega
  have hlowq : (2 * (m : ℚ) * t) + 1 ≤ 2 * (n : ℚ) + t := by exact_mod_cast hlow
  have hhighq : (2 * (n : ℚ)) + 1 ≤ 2 * (m : ℚ) * t + t := by exact_mod_cast hhigh
  rw [abs_lt] at hp
  have hp1 := mul_lt_mul_of_pos_right hp.1 (by positivity : (0 : ℚ) < 2 * t)
  have hp2 := mul_lt_mul_of_pos_right hp.2 (by positivity : (0 : ℚ) < 2 * t)
  rw [e2] at hp2
  have e3 : -(1 / (2 * (t : ℚ))) * (2 * t) = -1 := by field_simp
  rw [e3] at hp1
  unfold mathRound
  rw [Int.floor_eq_iff]
  constructor
  · have : (0 : ℚ) ≤ (p + 1 / 2 - m) * (2 * t) := by nlinarith
    have h0 : (0 : ℚ) ≤ p + 1 / 2 - m := by
      by_contra hneg
      push_neg at hneg
      have := mul_neg_of_neg_of_pos hneg (by positivity : (0 : ℚ) < 2 * t)
      linarith
    linarith
  · have : (p + 1 / 2 - (m + 1)) * (2 * t) < 0 := by nlinarith
    have h0 : p + 1 / 2 - (m + 1) < 0 := by
      by_contra hneg
      push_neg at hneg
      have := mul_nonneg hneg (by positivity : (0 : ℚ) ≤ 2 * t)
      linarith
    linarith

/-- Away from exact halves, the displayed percentage is the exact quotient
rounded to the nearest integer, for counts up to `2^44`. -/
theorem percentage_eq_exactPercentage (k t : Nat) (ht : 0 < t) (hk : k ≤ 2 ^ 44)
    (hhalf : (200 * k) % (2 * t) ≠ t) : percentage k t = exactPercentage k t := by
  unfold percentage exactPercentage
  rw [if_pos ht, if_pos ht]
  rcases Nat.eq_zero_or_pos k with h0 | hkpos
  · subst h0
    simp [toDouble, mathRound]
  · have herr := percentage_error k t hkpos ht hk
    have hcast : (100 * (k : ℚ)) / (t : ℚ) = ((100 * k : Nat) : ℚ) / (t : ℚ) := by
      push_cast; ring
    rw [hcast] at herr ⊢
    apply mathRound_stable (100 * k) t ht _ herr
    intro m heq
    apply hhalf
    have hm0 : 0 ≤ m := by
      by_contra hneg
      push_neg at hneg
      have h1 : (2 * m + 1) * (t : ℤ) < 0 := by
        apply mul_neg_of_neg_of_pos (by omega)
        exact_mod_cast ht
      have h2 : (0 : ℤ) ≤ 2 * ((100 * k : Nat) : ℤ) := by positivity
      omega
    obtain ⟨c, rfl⟩ := Int.eq_ofNat_of_zero_le hm0
    have heqn : 200 * k = t + c * (2 * t) := by
      have : ((200 * k : Nat) : ℤ) = ((t + c * (2 * t) : Nat) : ℤ) := by
        push_cast at heq ⊢
        linarith
      exact_mod_cast this
    rw [heqn, Nat.add_mul_mod_self_right]
    exact Nat.mod_eq_of_lt (by omega)

/-! ## Dispatch to a family -/

theorem analyzeIndicator_of_rsi (self : IndicatorSummaryCalculator) (name : String)
    (v : JSNum) (h : includes name "rsi" = true) :
    analyzeIndicator self name v = analyzeRSI self name v := by
  simp [analyzeIndicator, h]

theorem analyzeIndicator_of_macd (self : IndicatorSummaryCalculator) (name : String)
    (v : JSNum) (h : dispatchedTo name "macd" = true) :
    analyzeIndicator self name v = self.incNeutral := by
  simp [dispatchedTo, familyKeywords, List.takeWhile] at h
  simp [analyzeIndicator, analyzeMACD, h]

theorem analyzeIndicator_of_williams_r (self : IndicatorSummaryCalculator) (name : String)
    (v : JSNum) (h : dispatchedTo name "williams_r" = true) :
    analyzeIndicator self name v = analyzeWilliamsR self name v := by
  simp [dispatchedTo, familyKeywords, List.takeWhile] at h
  simp [analyzeIndicator, h]

theorem analyzeIndicator_of_adx (self : IndicatorSummaryCalculator) (name : String)
    (v : JSNum) (h : dispatchedTo name "adx" = true) :
    analyzeIndicator self name v = analyzeADX self name v := by
  simp [dispatchedTo, familyKeywords, List.takeWhile] at h
  simp [analyzeIndicator, h]

theorem analyzeIndicator_of_unrecognized (self : IndicatorSummaryCalculator)
    (name : String) (v : JSNum) (h : unrecognized name = true) :
    analyzeIndicator self name v = self.incNeutral := by
  simp [unrecognized, familyKeywords] at h
  simp [analyzeIndicator, h]

theorem countEntry_of_not_nan (self : IndicatorSummaryCalculator) (name : String)
    (v : JSNum) (h : v.isNaN = false) :
    countEntry self (name, JSValue.num v) = (analyzeIndicator self name v).incTotal := by
  simp [countEntry_num, h]

/-! ## Claims on idempotence, recommendation and sentiment -/

/-- C11: when a call of `calculateSummary` returns, a second call on the
same input, made on the calculator left by the first, returns the same counts
and leaves the same state; nothing accumulates, because each call starts from
reset counters.  The outcome of a call does not depend on the calculator's
state before it. -/
theorem calculateSummary_idempotent (self : IndicatorSummaryCalculator)
    (indicatorsData : JSValue) (first : SummaryCounts)
    (afterFirst : IndicatorSummaryCalculator)
    (h : calculateSummary self indicatorsData = .ok (first, afterFirst)) :
    calculateSummary afterFirst indicatorsData = .ok (first, afterFirst) ∧
    (∀ other : IndicatorSummaryCalculator,
      calculateSummary other indicatorsData = calculateSummary self indicatorsData) := by
  constructor
  · rw [calculateSummary_eq_fold] at h ⊢
    exact h
  · intro other
    rw [calculateSummary_eq_fold, calculateSummary_eq_fold]

/-- C11 at `{indicators: [], analysis: {rsi: {value: 75}}}`: the first call,
made on a calculator holding stale counts, returns 0, 1, 0, 1, and so does
the second. -/
theorem calculateSummary_idempotent_witness :
    calculateSummary { upCount := 7, downCount := 7, neutralCount := 7, totalCount := 21 }
        analysisInput =
      .ok ({ upCount := 0, downCount := 1, neutralCount := 0, totalCount := 1 },
           { upCount := 0, downCount := 1, neutralCount := 0, totalCount := 1 }) ∧
    calculateSummary { upCount := 0, downCount := 1, neutralCount := 0, totalCount := 1 }
        analysisInput =
      .ok ({ upCount := 0, downCount := 1, neutralCount := 0, totalCount := 1 },
           { upCount := 0, downCount := 1, neutralCount := 0, totalCount := 1 }) :=
  ⟨rfl,
   (calculateSummary_idempotent
      { upCount := 7, downCount := 7, neutralCount := 7, totalCount := 21 } analysisInput
      { upCount := 0, downCount := 1, neutralCount := 0, totalCount := 1 }
      { upCount := 0, downCount := 1, neutralCount := 0, totalCount := 1 } rfl).1⟩

/-- C12: for counts with `totalCount > 0` the recommendation is '買い推奨' (buy)
exactly when up exceeds both others, '売り推奨' (sell) exactly when down exceeds
both others, and 'ホールド推奨' (hold) exactly when neutral exceeds both others. -/
theorem recommendation_strict_majority (upCount downCount neutralCount totalCount : Nat)
    (_h : 0 < totalCount) :
    (updateDetailedSummaryRecommendation upCount downCount neutralCount totalCount
        = "買い推奨" ↔ upCount > downCount ∧ upCount > neutralCount) ∧
    (updateDetailedSummaryRecommendation upCount downCount neutralCount totalCount
        = "売り推奨" ↔ downCount > upCount ∧ downCount > neutralCount) ∧
    (updateDetailedSummaryRecommendation upCount downCount neutralCount totalCount
        = "ホールド推奨" ↔ neutralCount > upCount ∧ neutralCount > downCount) := by
  unfold updateDetailedSummaryRecommendation
  simp only [Bool.and_eq_true, decide_eq_true_eq, beq_iff_eq]
  split_ifs with h1 h2 h3 h4
  · refine ⟨by simp [h1], ?_, ?_⟩
    · constructor
      · intro h; exact absurd h (by decide)
      · intro h; omega
    · constructor
      · intro h; exact absurd h (by decide)
      · intro h; omega
  · refine ⟨?_, by simp [h2], ?_⟩
    · constructor
      · intro h; exact absurd h (by decide)
      · intro h; omega
    · constructor
      · intro h; exact absurd h (by decide)
      · intro h; omega
  · refine ⟨?_, ?_, by simp [h3]⟩
    · constructor
      · intro h; exact absurd h (by decide)
      · intro h; omega
    · constructor
      · intro h; exact absurd h (by decide)
      · intro h; omega
  · refine ⟨?_, ?_, ?_⟩ <;> constructor <;> intro h <;>
      first | exact absurd h (by decide) | exact absurd h h1 | exact absurd h h2
            | exact absurd h h3
  · refine ⟨?_, ?_, ?_⟩ <;> constructor <;> intro h <;>
      first | exact absurd h (by decide) | exact absurd h h1 | exact absurd h h2
            | exact absurd h h3

/-- C12 at the counts `{up: 5, down: 1, neutral: 1, total: 7}`: buy. -/
theorem recommendation_strict_majority_witness :
    0 < 7 ∧ updateDetailedSummaryRecommendation 5 1 1 7 = "買い推奨" :=
  ⟨by decide,
   (recommendation_strict_majority 5 1 1 7 (by decide)).1.mpr ⟨by decide, by decide⟩⟩

/-- C13: for counts with `totalCount > 0`, `upCount = downCount` and
`neutralCount` not above `upCount`, the recommendation is '中立' (neutral),
also when the tied counts both exceed `neutralCount`. -/
theorem recommendation_tie (upCount downCount neutralCount totalCount : Nat)
    (_h : 0 < totalCount) (htie : upCount = downCount)
    (hn : ¬ neutralCount > upCount) :
    updateDetailedSummaryRecommendation upCount downCount neutralCount totalCount
      = "中立" := by
  unfold updateDetailedSummaryRecommendation
  simp only [Bool.and_eq_true, decide_eq_true_eq, beq_iff_eq]
  split_ifs <;> first | rfl | omega

/-- C13 at the counts `{up: 3, down: 3, neutral: 1, total: 7}`: neutral. -/
theorem recommendation_tie_witness :
    0 < 7 ∧ (3 : Nat) = 3 ∧ ¬ (1 > 3) ∧
      updateDetailedSummaryRecommendation 3 3 1 7 = "中立" :=
  ⟨by decide, rfl, by decide,
   recommendation_tie 3 3 1 7 (by decide) rfl (by decide)⟩

/-- C14: for all integer percentages the sentiment is '強気' (bullish) when
`upPercent > 60`; otherwise '弱気' (bearish) when `downPercent > 60`; otherwise
'やや強気' when `upPercent > downPercent`; otherwise 'やや弱気' when
`downPercent > upPercent`; otherwise '中立'. -/
theorem sentiment_rule (upPercent downPercent : ℤ) :
    (60 < upPercent → updateSummaryDetailsSentiment upPercent downPercent = "強気") ∧
    (upPercent ≤ 60 → 60 < downPercent →
      updateSummaryDetailsSentiment upPercent downPercent = "弱気") ∧
    (upPercent ≤ 60 → downPercent ≤ 60 → downPercent < upPercent →
      updateSummaryDetailsSentiment upPercent downPercent = "やや強気") ∧
    (upPercent ≤ 60 → downPercent ≤ 60 → upPercent < downPercent →
      updateSummaryDetailsSentiment upPercent downPercent = "やや弱気") ∧
    (upPercent ≤ 60 → downPercent ≤ 60 → upPercent = downPercent →
      updateSummaryDetailsSentiment upPercent downPercent = "中立") := by
  unfold updateSummaryDetailsSentiment
  refine ⟨?_, ?_, ?_, ?_, ?_⟩ <;> intros <;> split_ifs <;> first | rfl | omega

theorem toDouble_eval (x : ℚ) (e n : ℤ) (h1 : (2 : ℚ) ^ e ≤ x)
    (h2 : x < (2 : ℚ) ^ (e + 1)) (h3 : (n : ℚ) - 1 / 2 < x / 2 ^ (e - 52))
    (h4 : x / 2 ^ (e - 52) < (n : ℚ) + 1 / 2) :
    toDouble x = n * 2 ^ (e - 52) := by
  rw [toDouble_of_binade x e h1 h2, roundHalfEven_eq _ n h3 h4]

theorem toDouble_23_40 : toDouble (23 / 40) = 5179139571476070 / 2 ^ 53 := by
  have h := toDouble_eval (23 / 40) (-1) 5179139571476070 (by norm_num) (by norm_num)
    (by norm_num) (by norm_num)
  rw [h]; norm_num

theorem toDouble_23_40_times_100 :
    toDouble (toDouble (23 / 40) * 100) = 8092405580431359 / 2 ^ 47 := by
  rw [toDouble_23_40]
  have h := toDouble_eval (5179139571476070 / 2 ^ 53 * 100) 5 8092405580431359
    (by norm_num) (by norm_num) (by norm_num) (by norm_num)
  rw [h]; norm_num

theorem percentage_23_40 : percentage 23 40 = 57 := by
  unfold percentage
  rw [if_pos (by decide)]
  have h : ((23 : Nat) : ℚ) / ((40 : Nat) : ℚ) = 23 / 40 := by norm_num
  rw [h, toDouble_23_40_times_100]
  unfold mathRound
  rw [Int.floor_eq_iff]
  constructor <;> norm_num

theorem exactPercentage_23_40 : exactPercentage 23 40 = 58 := by
  unfold exactPercentage
  rw [if_pos (by decide), Int.floor_eq_iff]
  constructor <;> norm_num

theorem percentage_5_7 : percentage 5 7 = 71 := by
  rw [percentage_eq_exactPercentage 5 7 (by decide) (by norm_num) (by decide)]
  unfold exactPercentage
  rw [if_pos (by decide), Int.floor_eq_iff]
  constructor <;> norm_num

/-- C14 at the counts `{5, 1, 1, 7}`: `upPercent` is 71 and the sentiment is
'強気' (bullish). -/
theorem sentiment_rule_witness :
    (updateDetailedSummary 5 1 1 7).upPercent = 71 ∧
    (updateDetailedSummary 5 1 1 7).sentiment = "強気" := by
  refine ⟨percentage_5_7, ?_⟩
  show updateSummaryDetailsSentiment (percentage 5 7) (percentage 1 7) = "強気"
  rw [percentage_5_7]
  exact (sentiment_rule 71 (percentage 1 7)).1 (by decide)

/-- C15, as stated, fails: for 23 of 40 the exact percentage is 57.5, which
rounds half up to 58, but the double product `(23 / 40) * 100` is
57.49999999999999 and `Math.round` gives 57. -/
theorem percentage_half_rounds_down :
    (100 * (23 : ℚ)) / 40 = 57 + 1 / 2 ∧
    exactPercentage 23 40 = 58 ∧
    (updateDetailedSummary 23 17 0 40).upPercent = 57 ∧
    (updateDetailedSummary 23 17 0 40).upPercent ≠ exactPercentage 23 40 := by
  have h : (updateDetailedSummary 23 17 0 40).upPercent = 57 := percentage_23_40
  refine ⟨by norm_num, exactPercentage_23_40, h, ?_⟩
  rw [h, exactPercentage_23_40]
  decide

/-- C15, amended: when `totalCount` is 0 all three percentages are 0; when
`totalCount > 0`, each percentage whose exact value `100 * k / totalCount` is
not halfway between two integers equals that value rounded to the nearest
integer (counts up to `2^44`).  Exact halves are left open. -/
theorem percentage_rounds_to_nearest (upCount downCount neutralCount totalCount : Nat) :
    (totalCount = 0 →
      (updateDetailedSummary upCount downCount neutralCount totalCount).upPercent = 0 ∧
      (updateDetailedSummary upCount downCount neutralCount totalCount).downPercent = 0 ∧
      (updateDetailedSummary upCount downCount neutralCount totalCount).neutralPercent
        = 0) ∧
    (0 < totalCount →
      (upCount ≤ 2 ^ 44 → (200 * upCount) % (2 * totalCount) ≠ totalCount →
        (updateDetailedSummary upCount downCount neutralCount totalCount).upPercent
          = ⌊(100 * (upCount : ℚ)) / (totalCount : ℚ) + 1 / 2⌋) ∧
      (downCount ≤ 2 ^ 44 → (200 * downCount) % (2 * totalCount) ≠ totalCount →
        (updateDetailedSummary upCount downCount neutralCount totalCount).downPercent
          = ⌊(100 * (downCount : ℚ)) / (totalCount : ℚ) + 1 / 2⌋) ∧
      (neutralCount ≤ 2 ^ 44 → (200 * neutralCount) % (2 * totalCount) ≠ totalCount →
        (updateDetailedSummary upCount downCount neutralCount totalCount).neutralPercent
          = ⌊(100 * (neutralCount : ℚ)) / (totalCount : ℚ) + 1 / 2⌋)) := by
  have key : ∀ k : Nat, 0 < totalCount → k ≤ 2 ^ 44 →
      (200 * k) % (2 * totalCount) ≠ totalCount →
      percentage k totalCount = ⌊(100 * (k : ℚ)) / (totalCount : ℚ) + 1 / 2⌋ := by
    intro k ht hk hh
    rw [percentage_eq_exactPercentage k totalCount ht hk hh, exactPercentage, if_pos ht]
  constructor
  · intro h0
    subst h0
    exact ⟨rfl, rfl, rfl⟩
  · intro ht
    exact ⟨key upCount ht, key downCount ht, key neutralCount ht⟩

/-- C15 amended, at the counts `{5, 1, 1, 7}` (71, 14 and 14 percent) and at
the empty counts. -/
theorem percentage_rounds_to_nearest_witness :
    (updateDetailedSummary 0 0 0 0).upPercent = 0 ∧
    (updateDetailedSummary 5 1 1 7).upPercent = ⌊(100 * ((5 : Nat) : ℚ)) / ((7 : Nat) : ℚ) + 1 / 2⌋ ∧
    (updateDetailedSummary 5 1 1 7).downPercent = ⌊(100 * ((1 : Nat) : ℚ)) / ((7 : Nat) : ℚ) + 1 / 2⌋ ∧
    ⌊(100 * ((5 : Nat) : ℚ)) / ((7 : Nat) : ℚ) + 1 / 2⌋ = 71 ∧
    ⌊(100 * ((1 : Nat) : ℚ)) / ((7 : Nat) : ℚ) + 1 / 2⌋ = 14 :=
  ⟨((percentage_rounds_to_nearest 0 0 0 0).1 rfl).1,
   ((percentage_rounds_to_nearest 5 1 1 7).2 (by decide)).1 (by norm_num) (by decide),
   ((percentage_rounds_to_nearest 5 1 1 7).2 (by decide)).2.1 (by norm_num) (by decide),
   by rw [Int.floor_eq_iff]; constructor <;> norm_num,
   by rw [Int.floor_eq_iff]; constructor <;> norm_num⟩

/-! ## Claims on the family rules -/

theorem toDouble_70_0001 : 70 < toDouble (700001 / 10000) := by
  have h := toDouble_sub_le (700001 / 10000) (by norm_num)
  rw [abs_le] at h
  have h2 : (70 : ℚ) < 700001 / 10000 - 700001 / 10000 / 2 ^ 53 := by norm_num
  linarith [h.1]

theorem toDouble_29_9999 : toDouble (299999 / 10000) < 30 := by
  have h := toDouble_sub_le (299999 / 10000) (by norm_num)
  rw [abs_le] at h
  have h2 : (299999 : ℚ) / 10000 + 299999 / 10000 / 2 ^ 53 < 30 := by norm_num
  linarith [h.2]

theorem analyzeRSI_fin (self : IndicatorSummaryCalculator) (name : String) (q : ℚ) :
    analyzeRSI self name (.fin q) =
      if 70 < q then self.incDown else if q < 30 then self.incUp else self.incNeutral := by
  simp [analyzeRSI, JSNum.gt, JSNum.lt]

/-- C16: for every name containing `rsi`, a value above 70 is down, a value
below 30 is up and a value from 30 to 70 is neutral; exactly 70 and exactly 30
are neutral, the double 70.0001 is down and the double 29.9999 is up. -/
theorem rsi_rule (self : IndicatorSummaryCalculator) (name : String)
    (h : includes name "rsi" = true) :
    (∀ q : ℚ, 70 < q → analyzeIndicator self name (.fin q) = self.incDown) ∧
    (∀ q : ℚ, q < 30 → analyzeIndicator self name (.fin q) = self.incUp) ∧
    (∀ q : ℚ, 30 ≤ q → q ≤ 70 → analyzeIndicator self name (.fin q) = self.incNeutral) ∧
    analyzeIndicator self name .posInf = self.incDown ∧
    analyzeIndicator self name .negInf = self.incUp ∧
    analyzeIndicator self name (.fin 70) = self.incNeutral ∧
    analyzeIndicator self name (.fin 30) = self.incNeutral ∧
    analyzeIndicator self name (.fin (toDouble (700001 / 10000))) = self.incDown ∧
    analyzeIndicator self name (.fin (toDouble (299999 / 10000))) = self.incUp := by
  have hdown : ∀ q : ℚ, 70 < q → analyzeIndicator self name (.fin q) = self.incDown := by
    intro q hq
    rw [analyzeIndicator_of_rsi self name _ h, analyzeRSI_fin, if_pos hq]
  have hup : ∀ q : ℚ, q < 30 → analyzeIndicator self name (.fin q) = self.incUp := by
    intro q hq
    rw [analyzeIndicator_of_rsi self name _ h, analyzeRSI_fin,
      if_neg (by linarith), if_pos hq]
  have hmid : ∀ q : ℚ, 30 ≤ q → q ≤ 70 →
      analyzeIndicator self name (.fin q) = self.incNeutral := by
    intro q h1 h2
    rw [analyzeIndicator_of_rsi self name _ h, analyzeRSI_fin,
      if_neg (by linarith), if_neg (by linarith)]
  refine ⟨hdown, hup, hmid, ?_, ?_, hmid 70 (by norm_num) (by norm_num),
    hmid 30 (by norm_num) (by norm_num), hdown _ toDouble_70_0001,
    hup _ toDouble_29_9999⟩
  · rw [analyzeIndicator_of_rsi self name _ h]; rfl
  · rw [analyzeIndicator_of_rsi self name _ h]; rfl

/-- C16 at the name `rsi_14`: 75 is down, 25 is up, 50 is neutral. -/
theorem rsi_rule_witness :
    includes "rsi_14" "rsi" = true ∧
    analyzeIndicator new "rsi_14" (.fin 75) = new.incDown ∧
    analyzeIndicator new "rsi_14" (.fin 25) = new.incUp ∧
    analyzeIndicator new "rsi_14" (.fin 50) = new.incNeutral ∧
    analyzeIndicator new "rsi_14" (.fin 70) = new.incNeutral :=
  ⟨by decide,
   (rsi_rule new "rsi_14" (by decide)).1 75 (by norm_num),
   (rsi_rule new "rsi_14" (by decide)).2.1 25 (by norm_num),
   (rsi_rule new "rsi_14" (by decide)).2.2.1 50 (by norm_num) (by norm_num),
   (rsi_rule new "rsi_14" (by decide)).2.2.2.2.2.1⟩

theorem analyzeADX_fin (self : IndicatorSummaryCalculator) (name : String) (q : ℚ) :
    analyzeADX self name (.fin q) = if 25 < q then self.incUp else self.incNeutral := by
  simp [analyzeADX, JSNum.gt]

/-- C17: for every name dispatched to the adx family, a value above 25 is up
and a value of 25 or less is neutral; no value increments `downCount`. -/
theorem adx_rule (self : IndicatorSummaryCalculator) (name : String)
    (h : dispatchedTo name "adx" = true) :
    (∀ q : ℚ, 25 < q → analyzeIndicator self name (.fin q) = self.incUp) ∧
    (∀ q : ℚ, q ≤ 25 → analyzeIndicator self name (.fin q) = self.incNeutral) ∧
    analyzeIndicator self name .posInf = self.incUp ∧
    analyzeIndicator self name .negInf = self.incNeutral ∧
    analyzeIndicator self name (.fin 25) = self.incNeutral ∧
    (∀ v : JSNum, (analyzeIndicator self name v).downCount = self.downCount) := by
  have hmid : ∀ q : ℚ, q ≤ 25 → analyzeIndicator self name (.fin q) = self.incNeutral := by
    intro q hq
    rw [analyzeIndicator_of_adx self name _ h, analyzeADX_fin, if_neg (by linarith)]
  refine ⟨?_, hmid, ?_, ?_, hmid 25 le_rfl, ?_⟩
  · intro q hq
    rw [analyzeIndicator_of_adx self name _ h, analyzeADX_fin, if_pos hq]
  · rw [analyzeIndicator_of_adx self name _ h]; rfl
  · rw [analyzeIndicator_of_adx self name _ h]; rfl
  · intro v
    rw [analyzeIndicator_of_adx self name _ h]
    unfold analyzeADX
    split_ifs <;> rfl

/-- C17 at the name `adx_14`: 30 is up, 25 and 10 are neutral. -/
theorem adx_rule_witness :
    dispatchedTo "adx_14" "adx" = true ∧
    analyzeIndicator new "adx_14" (.fin 30) = new.incUp ∧
    analyzeIndicator new "adx_14" (.fin 25) = new.incNeutral ∧
    analyzeIndicator new "adx_14" (.fin 10) = new.incNeutral :=
  ⟨by decide,
   (adx_rule new "adx_14" (by decide)).1 30 (by norm_num),
   (adx_rule new "adx_14" (by decide)).2.2.2.2.1,
   (adx_rule new "adx_14" (by decide)).2.1 10 (by norm_num)⟩

/-- C18: for every name dispatched to the macd family and every number other
than `NaN`, the reading is counted neutral: `neutralCount` and `totalCount`
grow by one, `upCount` and `downCount` stay. -/
theorem macd_rule (self : IndicatorSummaryCalculator) (name : String) (v : JSNum)
    (h : dispatchedTo name "macd" = true) (hv : v.isNaN = false) :
    (countEntry self (name, JSValue.num v)).neutralCount = self.neutralCount + 1 ∧
    (countEntry self (name, JSValue.num v)).totalCount = self.totalCount + 1 ∧
    (countEntry self (name, JSValue.num v)).upCount = self.upCount ∧
    (countEntry self (name, JSValue.num v)).downCount = self.downCount := by
  rw [countEntry_of_not_nan self name v hv, analyzeIndicator_of_macd self name v h]
  exact ⟨rfl, rfl, rfl, rfl⟩

/-- C18 at the name `macd_signal` with a positive, a negative and a zero value. -/
theorem macd_rule_witness :
    dispatchedTo "macd_signal" "macd" = true ∧
    (countEntry new ("macd_signal", JSValue.num (.fin 12))).neutralCount = 1 ∧
    (countEntry new ("macd_signal", JSValue.num (.fin (-12)))).neutralCount = 1 ∧
    (countEntry new ("macd_signal", JSValue.num (.fin 0))).totalCount = 1 :=
  ⟨by decide,
   (macd_rule new "macd_signal" (.fin 12) (by decide) rfl).1,
   (macd_rule new "macd_signal" (.fin (-12)) (by decide) rfl).1,
   (macd_rule new "macd_signal" (.fin 0) (by decide) rfl).2.1⟩

/-- C19: for every name containing none of the ten family keywords and every
number other than `NaN`, the reading is counted neutral: `neutralCount` and
`totalCount` grow by one, `upCount` and `downCount` stay. -/
theorem unrecognized_rule (self : IndicatorSummaryCalculator) (name : String) (v : JSNum)
    (h : unrecognized name = true) (hv : v.isNaN = false) :
    (countEntry self (name, JSValue.num v)).neutralCount = self.neutralCount + 1 ∧
    (countEntry self (name, JSValue.num v)).totalCount = self.totalCount + 1 ∧
    (countEntry self (name, JSValue.num v)).upCount = self.upCount ∧
    (countEntry self (name, JSValue.num v)).downCount = self.downCount := by
  rw [countEntry_of_not_nan self name v hv, analyzeIndicator_of_unrecognized self name v h]
  exact ⟨rfl, rfl, rfl, rfl⟩

/-- C19 at the names `RSI`, `Fear & Greed Index` and `sma`. -/
theorem unrecognized_rule_witness :
    unrecognized "RSI" = true ∧ unrecognized "Fear & Greed Index" = true ∧
    unrecognized "sma" = true ∧
    (countEntry new ("RSI", JSValue.num (.fin 90))).neutralCount = 1 ∧
    (countEntry new ("Fear & Greed Index", JSValue.num (.fin 90))).totalCount = 1 ∧
    (countEntry new ("sma", JSValue.num (.fin 90))).upCount = 0 :=
  ⟨by decide, by decide, by decide,
   (unrecognized_rule new "RSI" (.fin 90) (by decide) rfl).1,
   (unrecognized_rule new "Fear & Greed Index" (.fin 90) (by decide) rfl).2.1,
   (unrecognized_rule new "sma" (.fin 90) (by decide) rfl).2.2.1⟩

theorem analyzeWilliamsR_fin (self : IndicatorSummaryCalculator) (name : String) (q : ℚ) :
    analyzeWilliamsR self name (.fin q) =
      if -20 < q then self.incDown else if q < -80 then self.incUp
      else self.incNeutral := by
  simp [analyzeWilliamsR, JSNum.gt, JSNum.lt]

/-- C20: for every name dispatched to the williams_r family, a value above
-20 is down, a value below -80 is up, and a value from -80 to -20 is neutral,
both boundaries included. -/
theorem williams_r_rule (self : IndicatorSummaryCalculator) (name : String)
    (h : dispatchedTo name "williams_r" = true) :
    (∀ q : ℚ, -20 < q → analyzeIndicator self name (.fin q) = self.incDown) ∧
    (∀ q : ℚ, q < -80 → analyzeIndicator self name (.fin q) = self.incUp) ∧
    (∀ q : ℚ, -80 ≤ q → q ≤ -20 →
      analyzeIndicator self name (.fin q) = self.incNeutral) ∧
    analyzeIndicator self name .posInf = self.incDown ∧
    analyzeIndicator self name .negInf = self.incUp := by
  refine ⟨?_, ?_, ?_, ?_, ?_⟩
  · intro q hq
    rw [analyzeIndicator_of_williams_r self name _ h, analyzeWilliamsR_fin, if_pos hq]
  · intro q hq
    rw [analyzeIndicator_of_williams_r self name _ h, analyzeWilliamsR_fin,
      if_neg (by linarith), if_pos hq]
  · intro q h1 h2
    rw [analyzeIndicator_of_williams_r self name _ h, analyzeWilliamsR_fin,
      if_neg (by linarith), if_neg (by linarith)]
  · rw [analyzeIndicator_of_williams_r self name _ h]; rfl
  · rw [analyzeIndicator_of_williams_r self name _ h]; rfl

/-- C20 at the name `williams_r`: -10 is down, -90 is up, -20 and -80 are
neutral. -/
theorem williams_r_rule_witness :
    dispatchedTo "williams_r" "williams_r" = true ∧
    analyzeIndicator new "williams_r" (.fin (-10)) = new.incDown ∧
    analyzeIndicator new "williams_r" (.fin (-90)) = new.incUp ∧
    analyzeIndicator new "williams_r" (.fin (-20)) = new.incNeutral ∧
    analyzeIndicator new "williams_r" (.fin (-80)) = new.incNeutral :=
  ⟨by decide,
   (williams_r_rule new "williams_r" (by decide)).1 (-10) (by norm_num),
   (williams_r_rule new "williams_r" (by decide)).2.1 (-90) (by norm_num),
   (williams_r_rule new "williams_r" (by decide)).2.2.1 (-20) (by norm_num) (by norm_num),
   (williams_r_rule new "williams_r" (by decide)).2.2.1 (-80) (by norm_num) (by norm_num)⟩

/-! ## Claims on the remaining family rules -/

theorem analyzeIndicator_of_stochastic (self : IndicatorSummaryCalculator) (name : String)
    (v : JSNum) (h : dispatchedTo name "stochastic" = true) :
    analyzeIndicator self name v = analyzeStochastic self name v := by
  simp [dispatchedTo, familyKeywords, List.takeWhile] at h
  simp [analyzeIndicator, h]

theorem analyzeIndicator_of_cci (self : IndicatorSummaryCalculator) (name : String)
    (v : JSNum) (h : dispatchedTo name "cci" = true) :
    analyzeIndicator self name v = analyzeCCI self name v := by
  simp [dispatchedTo, familyKeywords, List.takeWhile] at h
  simp [analyzeIndicator, h]

theorem analyzeIndicator_of_money_flow_index (self : IndicatorSummaryCalculator)
    (name : String) (v : JSNum) (h : dispatchedTo name "money_flow_index" = true) :
    analyzeIndicator self name v = analyzeMoneyFlowIndex self name v := by
  simp [dispatchedTo, familyKeywords, List.takeWhile] at h
  simp [analyzeIndicator, h]

theorem analyzeIndicator_of_fear_greed_index (self : IndicatorSummaryCalculator)
    (name : String) (v : JSNum) (h : dispatchedTo name "fear_greed_index" = true) :
    analyzeIndicator self name v = analyzeFearGreedIndex self name v := by
  simp [dispatchedTo, familyKeywords, List.takeWhile] at h
  simp [analyzeIndicator, h]

theorem analyzeIndicator_of_correlation (self : IndicatorSummaryCalculator)
    (name : String) (v : JSNum) (h : dispatchedTo name "correlation" = true) :
    analyzeIndicator self name v = analyzeCorrelation self name v := by
  simp [dispatchedTo, familyKeywords, List.takeWhile] at h
  simp [analyzeIndicator, h]

theorem analyzeIndicator_of_rate_of_change (self : IndicatorSummaryCalculator)
    (name : String) (v : JSNum) (h : dispatchedTo name "rate_of_change" = true) :
    analyzeIndicator self name v = analyzeRateOfChange self name v := by
  simp [dispatchedTo, familyKeywords, List.takeWhile] at h
  simp [analyzeIndicator, h]

theorem analyzeCorrelation_fin (self : IndicatorSummaryCalculator) (name : String) (q : ℚ) :
    analyzeCorrelation self name (.fin q) =
      if 1 / 2 < q then self.incUp else if q < -(1 / 2) then self.incDown
      else self.incNeutral := by
  simp [analyzeCorrelation, JSNum.gt, JSNum.lt]

theorem analyzeRateOfChange_fin (self : IndicatorSummaryCalculator) (name : String)
    (q : ℚ) :
    analyzeRateOfChange self name (.fin q) =
      if 0 < q then self.incUp else if q < 0 then self.incDown else self.incNeutral := by
  simp [analyzeRateOfChange, JSNum.gt, JSNum.lt]

theorem analyzeStochastic_fin (self : IndicatorSummaryCalculator) (name : String) (q : ℚ) :
    analyzeStochastic self name (.fin q) =
      if 80 < q then self.incDown else if q < 20 then self.incUp else self.incNeutral := by
  simp [analyzeStochastic, JSNum.gt, JSNum.lt]

theorem analyzeMoneyFlowIndex_fin (self : IndicatorSummaryCalculator) (name : String)
    (q : ℚ) :
    analyzeMoneyFlowIndex self name (.fin q) =
      if 80 < q then self.incDown else if q < 20 then self.incUp else self.incNeutral := by
  simp [analyzeMoneyFlowIndex, JSNum.gt, JSNum.lt]

theorem analyzeCCI_fin (self : IndicatorSummaryCalculator) (name : String) (q : ℚ) :
    analyzeCCI self name (.fin q) =
      if 100 < q then self.incDown else if q < -100 then self.incUp
      else self.incNeutral := by
  simp [analyzeCCI, JSNum.gt, JSNum.lt]

theorem analyzeFearGreedIndex_fin (self : IndicatorSummaryCalculator) (name : String)
    (q : ℚ) :
    analyzeFearGreedIndex self name (.fin q) =
      if 70 < q then self.incDown else if q < 30 then self.incUp else self.incNeutral := by
  simp [analyzeFearGreedIndex, JSNum.gt, JSNum.lt]

theorem incUp_ne_incNeutral (self : IndicatorSummaryCalculator) :
    self.incUp ≠ self.incNeutral := by
  intro h
  have := congrArg IndicatorSummaryCalculator.upCount h
  simp [incUp, incNeutral] at this

theorem incDown_ne_incNeutral (self : IndicatorSummaryCalculator) :
    self.incDown ≠ self.incNeutral := by
  intro h
  have := congrArg IndicatorSummaryCalculator.downCount h
  simp [incDown, incNeutral] at this

/-- C21: for every name dispatched to the correlation family, a value above
0.5 is up, a value below -0.5 is down, and a value from -0.5 to 0.5 is
neutral, both boundaries included. -/
theorem correlation_rule (self : IndicatorSummaryCalculator) (name : String)
    (h : dispatchedTo name "correlation" = true) :
    (∀ q : ℚ, 1 / 2 < q → analyzeIndicator self name (.fin q) = self.incUp) ∧
    (∀ q : ℚ, q < -(1 / 2) → analyzeIndicator self name (.fin q) = self.incDown) ∧
    (∀ q : ℚ, -(1 / 2) ≤ q → q ≤ 1 / 2 →
      analyzeIndicator self name (.fin q) = self.incNeutral) ∧
    analyzeIndicator self name .posInf = self.incUp ∧
    analyzeIndicator self name .negInf = self.incDown := by
  refine ⟨?_, ?_, ?_, ?_, ?_⟩
  · intro q hq
    rw [analyzeIndicator_of_correlation self name _ h, analyzeCorrelation_fin, if_pos hq]
  · intro q hq
    rw [analyzeIndicator_of_correlation self name _ h, analyzeCorrelation_fin,
      if_neg (by linarith), if_pos hq]
  · intro q h1 h2
    rw [analyzeIndicator_of_correlation self name _ h, analyzeCorrelation_fin,
      if_neg (by linarith), if_neg (by linarith)]
  · rw [analyzeIndicator_of_correlation self name _ h]; rfl
  · rw [analyzeIndicator_of_correlation self name _ h]; rfl

/-- C21 at the name `correlation`: 0.8 is up, -0.8 is down, 0.5 and -0.5 are
neutral. -/
theorem correlation_rule_witness :
    dispatchedTo "correlation" "correlation" = true ∧
    analyzeIndicator new "correlation" (.fin (4 / 5)) = new.incUp ∧
    analyzeIndicator new "correlation" (.fin (-(4 / 5))) = new.incDown ∧
    analyzeIndicator new "correlation" (.fin (1 / 2)) = new.incNeutral ∧
    analyzeIndicator new "correlation" (.fin (-(1 / 2))) = new.incNeutral :=
  ⟨by decide,
   (correlation_rule new "correlation" (by decide)).1 (4 / 5) (by norm_num),
   (correlation_rule new "correlation" (by decide)).2.1 (-(4 / 5)) (by norm_num),
   (correlation_rule new "correlation" (by decide)).2.2.1 (1 / 2) (by norm_num) le_rfl,
   (correlation_rule new "correlation" (by decide)).2.2.1 (-(1 / 2)) le_rfl (by norm_num)⟩

/-- C22: for every name dispatched to the rate_of_change family, a value
above 0 is up, a value below 0 is down, and a number other than `NaN` is
neutral exactly when it is 0. -/
theorem rate_of_change_rule (self : IndicatorSummaryCalculator) (name : String)
    (h : dispatchedTo name "rate_of_change" = true) :
    (∀ q : ℚ, 0 < q → analyzeIndicator self name (.fin q) = self.incUp) ∧
    (∀ q : ℚ, q < 0 → analyzeIndicator self name (.fin q) = self.incDown) ∧
    analyzeIndicator self name .posInf = self.incUp ∧
    analyzeIndicator self name .negInf = self.incDown ∧
    (∀ v : JSNum, v.isNaN = false →
      (analyzeIndicator self name v = self.incNeutral ↔ v = .fin 0)) := by
  have hup : ∀ q : ℚ, 0 < q → analyzeIndicator self name (.fin q) = self.incUp := by
    intro q hq
    rw [analyzeIndicator_of_rate_of_change self name _ h, analyzeRateOfChange_fin,
      if_pos hq]
  have hdown : ∀ q : ℚ, q < 0 → analyzeIndicator self name (.fin q) = self.incDown := by
    intro q hq
    rw [analyzeIndicator_of_rate_of_change self name _ h, analyzeRateOfChange_fin,
      if_neg (by linarith), if_pos hq]
  have hpos : analyzeIndicator self name .posInf = self.incUp := by
    rw [analyzeIndicator_of_rate_of_change self name _ h]; rfl
  have hneg : analyzeIndicator self name .negInf = self.incDown := by
    rw [analyzeIndicator_of_rate_of_change self name _ h]; rfl
  refine ⟨hup, hdown, hpos, hneg, ?_⟩
  intro v hv
  cases v with
  | nan => simp [JSNum.isNaN] at hv
  | posInf => rw [hpos]; simp [incUp_ne_incNeutral]
  | negInf => rw [hneg]; simp [incDown_ne_incNeutral]
  | fin q =>
    rcases lt_trichotomy q 0 with hq | hq | hq
    · rw [hdown q hq]
      simp [incDown_ne_incNeutral, hq.ne]
    · subst hq
      rw [analyzeIndicator_of_rate_of_change self name _ h, analyzeRateOfChange_fin]
      simp
    · rw [hup q hq]
      simp [incUp_ne_incNeutral, hq.ne']

/-- C22 at the name `rate_of_change`: 3 is up, -3 is down, 0 is neutral. -/
theorem rate_of_change_rule_witness :
    dispatchedTo "rate_of_change" "rate_of_change" = true ∧
    analyzeIndicator new "rate_of_change" (.fin 3) = new.incUp ∧
    analyzeIndicator new "rate_of_change" (.fin (-3)) = new.incDown ∧
    analyzeIndicator new "rate_of_change" (.fin 0) = new.incNeutral :=
  ⟨by decide,
   (rate_of_change_rule new "rate_of_change" (by decide)).1 3 (by norm_num),
   (rate_of_change_rule new "rate_of_change" (by decide)).2.1 (-3) (by norm_num),
   ((rate_of_change_rule new "rate_of_change" (by decide)).2.2.2.2 (.fin 0) rfl).mpr rfl⟩

/-- C23: for every name dispatched to the stochastic family or to the
money_flow_index family, a value above 80 is down, a value below 20 is up, and
a value from 20 to 80 is neutral, both boundaries included. -/
theorem stochastic_money_flow_rule (self : IndicatorSummaryCalculator) (name : String)
    (h : dispatchedTo name "stochastic" = true ∨
      dispatchedTo name "money_flow_index" = true) :
    (∀ q : ℚ, 80 < q → analyzeIndicator self name (.fin q) = self.incDown) ∧
    (∀ q : ℚ, q < 20 → analyzeIndicator self name (.fin q) = self.incUp) ∧
    (∀ q : ℚ, 20 ≤ q → q ≤ 80 → analyzeIndicator self name (.fin q) = self.incNeutral) ∧
    analyzeIndicator self name .posInf = self.incDown ∧
    analyzeIndicator self name .negInf = self.incUp := by
  have key : ∀ v : JSNum, analyzeIndicator self name v =
      if v.gt 80 then self.incDown else if v.lt 20 then self.incUp
      else self.incNeutral := by
    intro v
    rcases h with h | h
    · rw [analyzeIndicator_of_stochastic self name v h]; rfl
    · rw [analyzeIndicator_of_money_flow_index self name v h]; rfl
  refine ⟨?_, ?_, ?_, ?_, ?_⟩
  · intro q hq
    simp [key, JSNum.gt, hq]
  · intro q hq
    have : ¬ (80 < q) := by linarith
    simp [key, JSNum.gt, JSNum.lt, hq, this]
  · intro q h1 h2
    have ha : ¬ (80 < q) := by linarith
    have hb : ¬ (q < 20) := by linarith
    simp [key, JSNum.gt, JSNum.lt, ha, hb]
  · rw [key]; rfl
  · rw [key]; rfl

/-- C23 at the names `stochastic_fast` and `money_flow_index`. -/
theorem stochastic_money_flow_rule_witness :
    dispatchedTo "stochastic_fast" "stochastic" = true ∧
    dispatchedTo "money_flow_index" "money_flow_index" = true ∧
    analyzeIndicator new "stochastic_fast" (.fin 90) = new.incDown ∧
    analyzeIndicator new "stochastic_fast" (.fin 80) = new.incNeutral ∧
    analyzeIndicator new "money_flow_index" (.fin 10) = new.incUp ∧
    analyzeIndicator new "money_flow_index" (.fin 20) = new.incNeutral :=
  ⟨by decide, by decide,
   (stochastic_money_flow_rule new "stochastic_fast" (Or.inl (by decide))).1 90
     (by norm_num),
   (stochastic_money_flow_rule new "stochastic_fast" (Or.inl (by decide))).2.2.1 80
     (by norm_num) le_rfl,
   (stochastic_money_flow_rule new "money_flow_index" (Or.inr (by decide))).2.1 10
     (by norm_num),
   (stochastic_money_flow_rule new "money_flow_index" (Or.inr (by decide))).2.2.1 20
     le_rfl (by norm_num)⟩

/-- C24: for every name dispatched to the cci family, a value above 100 is
down, a value below -100 is up, and a value from -100 to 100 is neutral, both
boundaries included. -/
theorem cci_rule (self : IndicatorSummaryCalculator) (name : String)
    (h : dispatchedTo name "cci" = true) :
    (∀ q : ℚ, 100 < q → analyzeIndicator self name (.fin q) = self.incDown) ∧
    (∀ q : ℚ, q < -100 → analyzeIndicator self name (.fin q) = self.incUp) ∧
    (∀ q : ℚ, -100 ≤ q → q ≤ 100 →
      analyzeIndicator self name (.fin q) = self.incNeutral) ∧
    analyzeIndicator self name .posInf = self.incDown ∧
    analyzeIndicator self name .negInf = self.incUp := by
  refine ⟨?_, ?_, ?_, ?_, ?_⟩
  · intro q hq
    rw [analyzeIndicator_of_cci self name _ h, analyzeCCI_fin, if_pos hq]
  · intro q hq
    rw [analyzeIndicator_of_cci self name _ h, analyzeCCI_fin,
      if_neg (by linarith), if_pos hq]
  · intro q h1 h2
    rw [analyzeIndicator_of_cci self name _ h, analyzeCCI_fin,
      if_neg (by linarith), if_neg (by linarith)]
  · rw [analyzeIndicator_of_cci self name _ h]; rfl
  · rw [analyzeIndicator_of_cci self name _ h]; rfl

/-- C24 at the name `cci_20`: 150 is down, -150 is up, 100 and -100 are
neutral. -/
theorem cci_rule_witness :
    dispatchedTo "cci_20" "cci" = true ∧
    analyzeIndicator new "cci_20" (.fin 150) = new.incDown ∧
    analyzeIndicator new "cci_20" (.fin (-150)) = new.incUp ∧
    analyzeIndicator new "cci_20" (.fin 100) = new.incNeutral ∧
    analyzeIndicator new "cci_20" (.fin (-100)) = new.incNeutral :=
  ⟨by decide,
   (cci_rule new "cci_20" (by decide)).1 150 (by norm_num),
   (cci_rule new "cci_20" (by decide)).2.1 (-150) (by norm_num),
   (cci_rule new "cci_20" (by decide)).2.2.1 100 (by norm_num) le_rfl,
   (cci_rule new "cci_20" (by decide)).2.2.1 (-100) le_rfl (by norm_num)⟩

/-- C25: for every name dispatched to the fear_greed_index family, a value
above 70 is down, a value below 30 is up, and a value from 30 to 70 is
neutral, both boundaries included. -/
theorem fear_greed_index_rule (self : IndicatorSummaryCalculator) (name : String)
    (h : dispatchedTo name "fear_greed_index" = true) :
    (∀ q : ℚ, 70 < q → analyzeIndicator self name (.fin q) = self.incDown) ∧
    (∀ q : ℚ, q < 30 → analyzeIndicator self name (.fin q) = self.incUp) ∧
    (∀ q : ℚ, 30 ≤ q → q ≤ 70 → analyzeIndicator self name (.fin q) = self.incNeutral) ∧
    analyzeIndicator self name .posInf = self.incDown ∧
    analyzeIndicator self name .negInf = self.incUp := by
  refine ⟨?_, ?_, ?_, ?_, ?_⟩
  · intro q hq
    rw [analyzeIndicator_of_fear_greed_index self name _ h, analyzeFearGreedIndex_fin,
      if_pos hq]
  · intro q hq
    rw [analyzeIndicator_of_fear_greed_index self name _ h, analyzeFearGreedIndex_fin,
      if_neg (by linarith), if_pos hq]
  · intro q h1 h2
    rw [analyzeIndicator_of_fear_greed_index self name _ h, analyzeFearGreedIndex_fin,
      if_neg (by linarith), if_neg (by linarith)]
  · rw [analyzeIndicator_of_fear_greed_index self name _ h]; rfl
  · rw [analyzeIndicator_of_fear_greed_index self name _ h]; rfl

/-- C25 at the name `fear_greed_index`: 80 is down, 20 is up, 70 and 30 are
neutral. -/
theorem fear_greed_index_rule_witness :
    dispatchedTo "fear_greed_index" "fear_greed_index" = true ∧
    analyzeIndicator new "fear_greed_index" (.fin 80) = new.incDown ∧
    analyzeIndicator new "fear_greed_index" (.fin 20) = new.incUp ∧
    analyzeIndicator new "fear_greed_index" (.fin 70) = new.incNeutral ∧
    analyzeIndicator new "fear_greed_index" (.fin 30) = new.incNeutral :=
  ⟨by decide,
   (fear_greed_index_rule new "fear_greed_index" (by decide)).1 80 (by norm_num),
   (fear_greed_index_rule new "fear_greed_index" (by decide)).2.1 20 (by norm_num),
   (fear_greed_index_rule new "fear_greed_index" (by decide)).2.2.1 70 (by norm_num)
     le_rfl,
   (fear_greed_index_rule new "fear_greed_index" (by decide)).2.2.1 30 le_rfl
     (by norm_num)⟩

/-! ## Claims on the fall-through label, shadowing and the role of `analysis` -/

/-- C26: for all counts, `updateDetailedSummary` leaves the recommendation
at its default 'データ不足' exactly when `upCount ≠ downCount` and `neutralCount`
equals the larger of the two; this happens with `totalCount > 0`, for example
at up 2, down 1, neutral 2. -/
theorem recommendation_fall_through (upCount downCount neutralCount totalCount : Nat) :
    (updateDetailedSummaryRecommendation upCount downCount neutralCount totalCount
        = "データ不足" ↔
      upCount ≠ downCount ∧ neutralCount = max upCount downCount) ∧
    updateDetailedSummaryRecommendation 2 1 2 5 = "データ不足" := by
  refine ⟨?_, by decide⟩
  unfold updateDetailedSummaryRecommendation
  simp only [Bool.and_eq_true, decide_eq_true_eq, beq_iff_eq]
  split_ifs with h1 h2 h3 h4
  · constructor
    · intro h; exact absurd h (by decide)
    · rintro ⟨-, h⟩; omega
  · constructor
    · intro h; exact absurd h (by decide)
    · rintro ⟨-, h⟩; omega
  · constructor
    · intro h; exact absurd h (by decide)
    · rintro ⟨-, h⟩; omega
  · constructor
    · intro h; exact absurd h (by decide)
    · rintro ⟨h, -⟩; exact absurd h4 h
  · constructor
    · intro _
      refine ⟨h4, ?_⟩
      omega
    · intro _; rfl

/-- C29: each of the ten canonical names, used exactly, is dispatched to its
own family rule: no canonical name contains a keyword tested before its own. -/
theorem canonical_names_not_shadowed (self : IndicatorSummaryCalculator) (v : JSNum) :
    (∀ kw ∈ familyKeywords, dispatchedTo kw kw = true) ∧
    analyzeIndicator self "rsi" v = analyzeRSI self "rsi" v ∧
    analyzeIndicator self "macd" v = analyzeMACD self "macd" v ∧
    analyzeIndicator self "stochastic" v = analyzeStochastic self "stochastic" v ∧
    analyzeIndicator self "williams_r" v = analyzeWilliamsR self "williams_r" v ∧
    analyzeIndicator self "cci" v = analyzeCCI self "cci" v ∧
    analyzeIndicator self "money_flow_index" v =
      analyzeMoneyFlowIndex self "money_flow_index" v ∧
    analyzeIndicator self "adx" v = analyzeADX self "adx" v ∧
    analyzeIndicator self "fear_greed_index" v =
      analyzeFearGreedIndex self "fear_greed_index" v ∧
    analyzeIndicator self "correlation" v = analyzeCorrelation self "correlation" v ∧
    analyzeIndicator self "rate_of_change" v =
      analyzeRateOfChange self "rate_of_change" v :=
  ⟨by decide,
   analyzeIndicator_of_rsi self _ v (by decide),
   analyzeIndicator_of_macd self _ v (by decide),
   analyzeIndicator_of_stochastic self _ v (by decide),
   analyzeIndicator_of_williams_r self _ v (by decide),
   analyzeIndicator_of_cci self _ v (by decide),
   analyzeIndicator_of_money_flow_index self _ v (by decide),
   analyzeIndicator_of_adx self _ v (by decide),
   analyzeIndicator_of_fear_greed_index self _ v (by decide),
   analyzeIndicator_of_correlation self _ v (by decide),
   analyzeIndicator_of_rate_of_change self _ v (by decide)⟩

/-- C30: when `analysis` is a non-null object and `indicators` is truthy, the
result of `calculateSummary` depends only on `analysis`: two inputs with the
same `analysis` and any two truthy `indicators` give the same result.  The
same holds for any `indicators` at all when `analysis` is falsy, so
`indicators` can only matter when `analysis` is a truthy non-object. -/
theorem calculateSummary_depends_on_analysis (self other : IndicatorSummaryCalculator)
    (input input2 a ind ind2 : JSValue)
    (ha : input.getProp "analysis" = .ok a) (ha2 : input2.getProp "analysis" = .ok a)
    (hi : input.getProp "indicators" = .ok ind)
    (hi2 : input2.getProp "indicators" = .ok ind2) :
    (a.truthy = true → a.typeofObject = true → ind.truthy = true → ind2.truthy = true →
      calculateSummary self input = calculateSummary other input2) ∧
    (a.truthy = false → input.truthy = true → input2.truthy = true →
      calculateSummary self input = calculateSummary other input2) := by
  constructor
  · intro hat hao hit hit2
    have ht : input.truthy = true := by
      cases input <;> simp [JSValue.getProp] at ha <;> first
        | rfl
        | (subst ha; simp [JSValue.truthy] at hat)
    have ht2 : input2.truthy = true := by
      cases input2 <;> simp [JSValue.getProp] at ha2 <;> first
        | rfl
        | (subst ha2; simp [JSValue.truthy] at hat)
    have hobj : (a.truthy && a.typeofObject) = true := by simp [hat, hao]
    rw [calculateSummary_eq_fold, calculateSummary_eq_fold]
    unfold extractedReadings
    rw [dataMissing_eq input ind a ht hi ha, dataMissing_eq input2 ind2 a ht2 hi2 ha2,
      extractIndicatorValues_of_analysis input input2 a ha ha2 hobj]
    simp [hat, hit, hit2]
  · intro hat ht ht2
    rw [calculateSummary_eq_fold, calculateSummary_eq_fold]
    unfold extractedReadings
    rw [dataMissing_eq input ind a ht hi ha, dataMissing_eq input2 ind2 a ht2 hi2 ha2]
    simp [hat]

/-- C30 at concrete inputs: with `analysis = {rsi: {value: 75}}` the
indicators `[]` and `true` give the same result, one down reading; with
`analysis = {}` a snapshot holding `rsi: 75` is ignored. -/
theorem calculateSummary_depends_on_analysis_witness :
    calculateSummary new analysisInput = calculateSummary new analysisInputOtherIndicators ∧
    (∃ r, calculateSummary new analysisInputOtherIndicators = .ok r ∧
      r.1 = { upCount := 0, downCount := 1, neutralCount := 0, totalCount := 1 }) ∧
    calculateSummary new emptyAnalysisInput =
      calculateSummary new emptyAnalysisWithSnapshot ∧
    (∃ r, calculateSummary new emptyAnalysisWithSnapshot = .ok r ∧ r.1 = zeroCounts) :=
  ⟨(calculateSummary_depends_on_analysis new new analysisInput
      analysisInputOtherIndicators (.obj [("rsi", .obj [("value", .num (.fin 75))])])
      (.arr []) (.bool true) rfl rfl rfl rfl).1 rfl rfl rfl rfl,
   ⟨_, rfl, rfl⟩,
   (calculateSummary_depends_on_analysis new new emptyAnalysisInput
      emptyAnalysisWithSnapshot (.obj []) (.arr [])
      (.arr [.obj [("values", .obj [("rsi", .num (.fin 75))])]])
      rfl rfl rfl rfl).1 rfl rfl rfl rfl,
   ⟨_, rfl, rfl⟩⟩

/-! ## Claims relating the rounded percentages to the counts -/

/-- The double product `(count / totalCount) * 100` differs from the exact
value by at most the fraction `5 / 2 / 2^53` of it. -/
theorem product_rel_error (k t : Nat) (hk : 0 < k) (ht : 0 < t) :
    |toDouble (toDouble ((k : ℚ) / (t : ℚ)) * 100) - 100 * (k : ℚ) / (t : ℚ)| ≤
      100 * (k : ℚ) / (t : ℚ) * (5 / 2 / 2 ^ 53) := by
  have hkq : (0 : ℚ) < k := by exact_mod_cast hk
  have htq : (0 : ℚ) < t := by exact_mod_cast ht
  have hx : (0 : ℚ) < (k : ℚ) / t := div_pos hkq htq
  have e1 : 100 * (k : ℚ) / t = 100 * ((k : ℚ) / t) := by ring
  rw [e1]
  generalize (k : ℚ) / t = x at hx ⊢
  have hy := toDouble_sub_le x hx
  have hypos := toDouble_pos x hx
  generalize toDouble x = y at hy hypos ⊢
  have hz : (0 : ℚ) < y * 100 := by positivity
  have hp := toDouble_sub_le (y * 100) hz
  generalize toDouble (y * 100) = p at hp ⊢
  rw [abs_le] at hy hp ⊢
  have hy2 : y ≤ 3 / 2 * x := by
    have : x / 2 ^ 53 ≤ x / 2 := by
      apply div_le_div_of_nonneg_left hx.le (by norm_num) (by norm_num)
    linarith [hy.2]
  have hsmall : (y * 100) / 2 ^ 53 ≤ 100 * x * (3 / 2 / 2 ^ 53) := by
    rw [div_le_iff₀ (by positivity)]
    have : 100 * x * (3 / 2 / 2 ^ 53) * 2 ^ 53 = 150 * x := by field_simp; ring
    rw [this]; linarith
  have h5 : 100 * x * (5 / 2 / 2 ^ 53) =
      100 * x * (3 / 2 / 2 ^ 53) + 100 * (x / 2 ^ 53) := by ring
  constructor
  · linarith [hp.1, hy.1]
  · linarith [hp.2, hy.2]

theorem percentage_zero_count (t : Nat) : percentage 0 t = 0 := by
  unfold percentage
  split_ifs
  · simp [toDouble, mathRound]
    norm_num
  · rfl

/-- For a count not above the total, the displayed percentage lies within
`3 / 5` of the exact percentage. -/
theorem percentage_near_exact (k t : Nat) (ht : 0 < t) (hk : k ≤ t) :
    100 * (k : ℚ) / (t : ℚ) - 3 / 5 < (percentage k t : ℚ) ∧
    (percentage k t : ℚ) ≤ 100 * (k : ℚ) / (t : ℚ) + 3 / 5 := by
  rcases Nat.eq_zero_or_pos k with h0 | hkpos
  · subst h0
    rw [percentage_zero_count]
    norm_num
  · have htq : (0 : ℚ) < t := by exact_mod_cast ht
    have hkq : (k : ℚ) ≤ t := by exact_mod_cast hk
    have hk0 : (0 : ℚ) < k := by exact_mod_cast hkpos
    have hX : 100 * (k : ℚ) / t ≤ 100 := by
      rw [div_le_iff₀ htq]; linarith
    have hX0 : 0 ≤ 100 * (k : ℚ) / t := by positivity
    have herr := product_rel_error k t hkpos ht
    have hsmall : 100 * (k : ℚ) / t * (5 / 2 / 2 ^ 53) ≤ 1 / 10 := by
      have h1 : 100 * (k : ℚ) / t * (5 / 2 / 2 ^ 53) ≤ 100 * (5 / 2 / 2 ^ 53) :=
        mul_le_mul_of_nonneg_right hX (by positivity)
      have h2 : (100 : ℚ) * (5 / 2 / 2 ^ 53) ≤ 1 / 10 := by norm_num
      linarith
    rw [abs_le] at herr
    unfold percentage
    rw [if_pos ht]
    unfold mathRound
    have hf1 := Int.floor_le (toDouble (toDouble ((k : ℚ) / (t : ℚ)) * 100) + 1 / 2)
    have hf2 := Int.lt_floor_add_one
      (toDouble (toDouble ((k : ℚ) / (t : ℚ)) * 100) + 1 / 2)
    constructor
    · linarith [herr.1]
    · linarith [herr.2]

/-- A percentage above 60 needs more than half of the total. -/
theorem majority_of_percentage (k t : Nat) (ht : 0 < t) (hk : k ≤ t)
    (h : 60 < percentage k t) : t < 2 * k := by
  have hb := (percentage_near_exact k t ht hk).2
  have htq : (0 : ℚ) < t := by exact_mod_cast ht
  have h61 : (61 : ℚ) ≤ (percentage k t : ℚ) := by
    have : (61 : ℤ) ≤ percentage k t := by omega
    exact_mod_cast this
  have hX : (302 : ℚ) / 5 ≤ 100 * (k : ℚ) / t := by linarith
  rw [le_div_iff₀ htq] at hX
  have : (t : ℚ) < 2 * (k : ℚ) := by linarith
  exact_mod_cast this

theorem sentiment_bullish_iff (u d : ℤ) :
    updateSummaryDetailsSentiment u d = "強気" ↔ 60 < u := by
  unfold updateSummaryDetailsSentiment
  split_ifs with h1 <;> simp [h1]

theorem sentiment_bearish_iff (u d : ℤ) :
    updateSummaryDetailsSentiment u d = "弱気" ↔ ¬ 60 < u ∧ 60 < d := by
  unfold updateSummaryDetailsSentiment
  split_ifs <;> simp [*]

theorem recommendation_of_majority_up (up down neutral total : Nat)
    (h : down + neutral < up) :
    updateDetailedSummaryRecommendation up down neutral total = "買い推奨" := by
  have h1 : up > down := by omega
  have h2 : up > neutral := by omega
  simp [updateDetailedSummaryRecommendation, h1, h2]

theorem recommendation_of_majority_down (up down neutral total : Nat)
    (h : up + neutral < down) :
    updateDetailedSummaryRecommendation up down neutral total = "売り推奨" := by
  have h1 : ¬ up > down := by omega
  have h2 : down > up := by omega
  have h3 : down > neutral := by omega
  simp [updateDetailedSummaryRecommendation, h1, h2, h3]

/-- C27: for counts with `upCount + downCount + neutralCount = totalCount`
and `totalCount > 0`, a displayed `upPercent` above 60 (sentiment '強気')
comes with the recommendation '買い推奨', and a displayed `downPercent` above 60
(sentiment '弱気') with the recommendation '売り推奨'. -/
theorem strong_sentiment_agrees (upCount downCount neutralCount totalCount : Nat)
    (hsum : upCount + downCount + neutralCount = totalCount) (ht : 0 < totalCount) :
    (60 < (updateDetailedSummary upCount downCount neutralCount totalCount).upPercent →
      (updateDetailedSummary upCount downCount neutralCount totalCount).recommendation
        = "買い推奨") ∧
    (60 < (updateDetailedSummary upCount downCount neutralCount totalCount).downPercent →
      (updateDetailedSummary upCount downCount neutralCount totalCount).recommendation
        = "売り推奨") ∧
    ((updateDetailedSummary upCount downCount neutralCount totalCount).sentiment = "強気" →
      (updateDetailedSummary upCount downCount neutralCount totalCount).recommendation
        = "買い推奨") ∧
    ((updateDetailedSummary upCount downCount neutralCount totalCount).sentiment = "弱気" →
      (updateDetailedSummary upCount downCount neutralCount totalCount).recommendation
        = "売り推奨") := by
  have hup : 60 < percentage upCount totalCount →
      updateDetailedSummaryRecommendation upCount downCount neutralCount totalCount
        = "買い推奨" := by
    intro h
    have := majority_of_percentage upCount totalCount ht (by omega) h
    exact recommendation_of_majority_up _ _ _ _ (by omega)
  have hdown : 60 < percentage downCount totalCount →
      updateDetailedSummaryRecommendation upCount downCount neutralCount totalCount
        = "売り推奨" := by
    intro h
    have := majority_of_percentage downCount totalCount ht (by omega) h
    exact recommendation_of_majority_down _ _ _ _ (by omega)
  refine ⟨hup, hdown, ?_, ?_⟩
  · intro hs
    exact hup ((sentiment_bullish_iff _ _).mp hs)
  · intro hs
    exact hdown ((sentiment_bearish_iff _ _).mp hs).2

/-- C27 at the counts `{5, 1, 1, 7}`: `upPercent` is 71 and the recommendation
is buy. -/
theorem strong_sentiment_agrees_witness :
    5 + 1 + 1 = 7 ∧ (updateDetailedSummary 5 1 1 7).upPercent = 71 ∧
    (updateDetailedSummary 5 1 1 7).recommendation = "買い推奨" :=
  ⟨rfl, percentage_5_7,
   (strong_sentiment_agrees 5 1 1 7 rfl (by decide)).1
     (by rw [show (updateDetailedSummary 5 1 1 7).upPercent = 71 from percentage_5_7]
         decide)⟩

theorem percentage_1_3 : percentage 1 3 = 33 := by
  rw [percentage_eq_exactPercentage 1 3 (by decide) (by norm_num) (by decide)]
  unfold exactPercentage
  rw [if_pos (by decide), Int.floor_eq_iff]
  constructor <;> norm_num

theorem percentage_1_7 : percentage 1 7 = 14 := by
  rw [percentage_eq_exactPercentage 1 7 (by decide) (by norm_num) (by decide)]
  unfold exactPercentage
  rw [if_pos (by decide), Int.floor_eq_iff]
  constructor <;> norm_num

theorem percentage_6_8 : percentage 6 8 = 75 := by
  rw [percentage_eq_exactPercentage 6 8 (by decide) (by norm_num) (by decide)]
  unfold exactPercentage
  rw [if_pos (by decide), Int.floor_eq_iff]
  constructor <;> norm_num

theorem percentage_1_8 : percentage 1 8 = 13 := by
  unfold percentage
  rw [if_pos (by decide)]
  have h0 : ((1 : Nat) : ℚ) / ((8 : Nat) : ℚ) = 1 / 8 := by norm_num
  have h1 : toDouble (1 / 8) = 1 / 8 := by
    have h := toDouble_eval (1 / 8) (-3) 4503599627370496 (by norm_num) (by norm_num)
      (by norm_num) (by norm_num)
    rw [h]; norm_num
  have h2 : toDouble (1 / 8 * 100) = 25 / 2 := by
    have h := toDouble_eval (1 / 8 * 100) 3 7036874417766400 (by norm_num) (by norm_num)
      (by norm_num) (by norm_num)
    rw [h]; norm_num
  rw [h0, h1, h2]
  unfold mathRound
  rw [Int.floor_eq_iff]
  constructor <;> norm_num

/-- C28: for counts with `upCount + downCount + neutralCount = totalCount`
and `totalCount > 0` the three displayed percentages add up to 99, 100 or 101;
99 is attained at the counts 1, 1, 1 and 101 at the counts 1, 1, 6. -/
theorem percentages_sum (upCount downCount neutralCount totalCount : Nat)
    (hsum : upCount + downCount + neutralCount = totalCount) (ht : 0 < totalCount) :
    ((updateDetailedSummary upCount downCount neutralCount totalCount).upPercent +
      (updateDetailedSummary upCount downCount neutralCount totalCount).downPercent +
      (updateDetailedSummary upCount downCount neutralCount totalCount).neutralPercent
        = 99 ∨
     (updateDetailedSummary upCount downCount neutralCount totalCount).upPercent +
      (updateDetailedSummary upCount downCount neutralCount totalCount).downPercent +
      (updateDetailedSummary upCount downCount neutralCount totalCount).neutralPercent
        = 100 ∨
     (updateDetailedSummary upCount downCount neutralCount totalCount).upPercent +
      (updateDetailedSummary upCount downCount neutralCount totalCount).downPercent +
      (updateDetailedSummary upCount downCount neutralCount totalCount).neutralPercent
        = 101) ∧
    (updateDetailedSummary 1 1 1 3).upPercent + (updateDetailedSummary 1 1 1 3).downPercent +
      (updateDetailedSummary 1 1 1 3).neutralPercent = 99 ∧
    (updateDetailedSummary 1 1 6 8).upPercent + (updateDetailedSummary 1 1 6 8).downPercent +
      (updateDetailedSummary 1 1 6 8).neutralPercent = 101 := by
  refine ⟨?_, ?_, ?_⟩
  · have hu := percentage_near_exact upCount totalCount ht (by omega)
    have hd := percentage_near_exact downCount totalCount ht (by omega)
    have hn := percentage_near_exact neutralCount totalCount ht (by omega)
    have htq : (0 : ℚ) < totalCount := by exact_mod_cast ht
    have hs : 100 * (upCount : ℚ) / totalCount + 100 * (downCount : ℚ) / totalCount +
        100 * (neutralCount : ℚ) / totalCount = 100 := by
      have : (totalCount : ℚ) = upCount + downCount + neutralCount := by
        rw [← hsum]; push_cast; ring
      field_simp
      rw [this]; ring
    have hlo : (98 : ℚ) < ((percentage upCount totalCount + percentage downCount totalCount +
        percentage neutralCount totalCount : ℤ) : ℚ) := by
      push_cast; linarith [hu.1, hd.1, hn.1]
    have hhi : ((percentage upCount totalCount + percentage downCount totalCount +
        percentage neutralCount totalCount : ℤ) : ℚ) < 102 := by
      push_cast; linarith [hu.2, hd.2, hn.2]
    have hlo2 : (98 : ℤ) < percentage upCount totalCount + percentage downCount totalCount +
        percentage neutralCount totalCount := by exact_mod_cast hlo
    have hhi2 : percentage upCount totalCount + percentage downCount totalCount +
        percentage neutralCount totalCount < (102 : ℤ) := by exact_mod_cast hhi
    have key : percentage upCount totalCount + percentage downCount totalCount +
          percentage neutralCount totalCount = 99 ∨
        percentage upCount totalCount + percentage downCount totalCount +
          percentage neutralCount totalCount = 100 ∨
        percentage upCount totalCount + percentage downCount totalCount +
          percentage neutralCount totalCount = 101 := by omega
    exact key
  · show percentage 1 3 + percentage 1 3 + percentage 1 3 = 99
    rw [percentage_1_3]; rfl
  · show percentage 1 8 + percentage 1 8 + percentage 6 8 = 101
    rw [percentage_1_8, percentage_6_8]; rfl

/-- C28 at the counts `{5, 1, 1, 7}`: 71 + 14 + 14 = 99. -/
theorem percentages_sum_witness :
    5 + 1 + 1 = 7 ∧
    (updateDetailedSummary 5 1 1 7).upPercent + (updateDetailedSummary 5 1 1 7).downPercent +
      (updateDetailedSummary 5 1 1 7).neutralPercent = 99 ∧
    ((updateDetailedSummary 5 1 1 7).upPercent + (updateDetailedSummary 5 1 1 7).downPercent +
      (updateDetailedSummary 5 1 1 7).neutralPercent = 99 ∨
     (updateDetailedSummary 5 1 1 7).upPercent + (updateDetailedSummary 5 1 1 7).downPercent +
      (updateDetailedSummary 5 1 1 7).neutralPercent = 100 ∨
     (updateDetailedSummary 5 1 1 7).upPercent + (updateDetailedSummary 5 1 1 7).downPercent +
      (updateDetailedSummary 5 1 1 7).neutralPercent = 101) :=
  ⟨rfl,
   by
     show percentage 5 7 + percentage 1 7 + percentage 1 7 = 99
     rw [percentage_5_7, percentage_1_7]; rfl,
   (percentages_sum 5 1 1 7 rfl (by decide)).1⟩

/-! ## The total count and the readings of `analysis` -/

theorem countable_readingOf (e : String × JSValue) (h : e.1 ≠ "__proto__") :
    ((readingOf e).map (fun r => r.2.isCountable)).getD false =
      (match e.2.getProp "value" with
       | .ok value => value.isCountable
       | .error _ => false) := by
  unfold readingOf
  rw [if_neg h]
  by_cases ht : e.2.truthy = true
  · obtain ⟨x, hx⟩ := getProp_of_truthy e.2 "value" ht
    simp only [ht, hx, if_true]
    cases x <;> simp [JSValue.isDefined, JSValue.isCountable]
  · simp only [ht]
    cases hv : e.2 <;> simp [hv, JSValue.truthy] at ht <;>
      simp [JSValue.getProp, JSValue.isCountable]

theorem countP_filterMap_readingOf (props : List (String × JSValue))
    (hproto : ∀ e ∈ props, e.1 ≠ "__proto__") :
    (props.filterMap readingOf).countP (fun e => e.2.isCountable) =
      numberReadingCount props := by
  induction props with
  | nil => rfl
  | cons e es ih =>
    have he := countable_readingOf e (hproto e (List.mem_cons_self _ _))
    have ih2 := ih (fun x hx => hproto x (List.mem_cons_of_mem _ hx))
    unfold numberReadingCount at ih2 ⊢
    rw [List.filterMap_cons, List.countP_cons, ← ih2, ← he]
    cases hr : readingOf e with
    | none => simp
    | some r => simp [List.countP_cons]

theorem readingOf_value (e r : String × JSValue) (h : readingOf e = some r) :
    e.2.getProp "value" = .ok r.2 := by
  unfold readingOf at h
  split_ifs at h
  split at h
  · rename_i value hv
    split_ifs at h
    simp at h
    rw [← h]; exact hv
  · simp at h

/-- C2, amended: for every input with a truthy `indicators` whose `analysis`
is an object (names distinct, none of them `__proto__`), the `totalCount`
returned by `calculateSummary` is the number of entries `name: data` of
`analysis` whose `data.value` is a number other than `NaN`; an infinite value
counts.  The call returns whenever every `data.value` converts to a string. -/
theorem calculateSummary_total_counts_numbers (self : IndicatorSummaryCalculator)
    (indicatorsData ind : JSValue) (props : List (String × JSValue))
    (hi : indicatorsData.getProp "indicators" = .ok ind) (hit : ind.truthy = true)
    (ha : indicatorsData.getProp "analysis" = .ok (.obj props))
    (hnd : (props.map Prod.fst).Nodup) (hproto : ∀ e ∈ props, e.1 ≠ "__proto__") :
    (∀ r, calculateSummary self indicatorsData = .ok r →
      r.1.totalCount = numberReadingCount props) ∧
    ((∀ e ∈ props, ∀ v, e.2.getProp "value" = .ok v → v.convertsToString = true) →
      ∃ r, calculateSummary self indicatorsData = .ok r) := by
  have hr : extractedReadings indicatorsData = props.filterMap readingOf := by
    rw [extractedReadings_analysis indicatorsData ind props hi ha hnd, if_pos hit]
  rw [calculateSummary_eq_fold, hr]
  constructor
  · intro r h
    rw [(summarize_ok _ r h).2]
    have ht := foldl_countEntry_total (props.filterMap readingOf) new
    rw [countP_filterMap_readingOf props hproto] at ht
    simpa [getCounts, new] using ht
  · intro hc
    refine ⟨_, summarize_of_converts _ ?_⟩
    rw [List.all_eq_true]
    intro r hrm
    obtain ⟨e, he, hre⟩ := List.mem_filterMap.mp hrm
    exact hc e he r.2 (readingOf_value e r hre)

/-- C2 amended, at `{indicators: [], analysis: {rsi: {value: Infinity}}}`
(one reading, infinite, counted) and at
`{indicators: [], analysis: {note: {value: 'n/a'}, rsi: {value: 75}}}`
(two readings, one of them a number). -/
theorem calculateSummary_total_counts_numbers_witness :
    (numberReadingCount [("rsi", .obj [("value", .num .posInf)])] = 1 ∧
      ∃ r, calculateSummary new infinityInput = .ok r ∧
        r.1.totalCount = numberReadingCount [("rsi", .obj [("value", .num .posInf)])]) ∧
    (numberReadingCount [("note", .obj [("value", .str "n/a")]),
        ("rsi", .obj [("value", .num (.fin 75))])] = 1 ∧
      ∃ r, calculateSummary new analysisInputWithText = .ok r ∧
        r.1.totalCount = numberReadingCount [("note", .obj [("value", .str "n/a")]),
          ("rsi", .obj [("value", .num (.fin 75))])]) :=
  ⟨⟨by decide, _, rfl,
     (calculateSummary_total_counts_numbers new infinityInput (.arr [])
        [("rsi", .obj [("value", .num .posInf)])] rfl rfl rfl (by decide)
        (by decide)).1 _ rfl⟩,
   ⟨by decide, _, rfl,
     (calculateSummary_total_counts_numbers new analysisInputWithText (.arr [])
        [("note", .obj [("value", .str "n/a")]),
         ("rsi", .obj [("value", .num (.fin 75))])] rfl rfl rfl (by decide)
        (by decide)).1 _ rfl⟩⟩

end Dashboard
